import Mathlib

/-!
Verification of the BEMS bulk CSV import pipeline
(`backend/app/utils/csv_import.py` and the `bulk_import` endpoint of
`backend/app/api/v1/admin.py`), as a shallow embedding in Lean 4.

Modelling conventions:
* A pandas cell is a `Cell`: a missing value (NaN/None, `Cell.na`), a string,
  an integer, a finite float (represented exactly as a rational), or a bool.
* Python `float` values flowing through the pipeline are `PyFloat`:
  either NaN or a finite rational.
* Python exceptions are `PyErr`; code that can raise is `Except`-valued.
  `pyErrStr` models `str(e)`.  For pydantic `ValidationError` the exact
  (multi-line) message text is abbreviated to a one-line summary; no theorem
  below depends on that text.
* ORM audit timestamps (`created_at`/`updated_at` of the SQLAlchemy base
  model) are outside the embedding; `datetime.utcnow()` values that the
  pipeline itself stores (`last_updated`, `declared_at`) are modelled by a
  `now : Nat` parameter, constant during one call.
* Auto-increment primary keys are modelled by a fresh-id counter `nextId`
  on the store.
-/

deriving instance DecidableEq for Except

namespace BEMS

/-- Scalar value held in one cell of a parsed pandas DataFrame.
`na` is a missing value (NaN): `pd.isna` is true exactly on it. -/
inductive Cell
  | na
  | s (v : String)
  | i (v : Int)
  | r (v : Rat)
  | b (v : Bool)
deriving DecidableEq, Repr

/-- Python float value: NaN or a finite value (represented exactly). -/
inductive PyFloat
  | nan
  | val (q : Rat)
deriving DecidableEq, Repr

/-- Python exception raised by pipeline code. -/
inductive PyErr
  | valueError (msg : String)
  | keyError (key : String)
  | httpError (status : Nat) (detail : String)
  | validationError (msg : String)
  | attributeError (msg : String)
deriving DecidableEq, Repr

/-- A single-quote character, used when rendering Python `repr`-style text. -/
def pyQuote : String := String.singleton (Char.ofNat 39)

/-- Model of Python `str(e)` for the exceptions above.  `KeyError` stringifies
to the repr of the key; `HTTPException` to `"<status>: <detail>"` (starlette's
`__str__`); `ValueError`/`AttributeError` to their message. -/
def pyErrStr : PyErr → String
  | .valueError m => m
  | .keyError k => pyQuote ++ k ++ pyQuote
  | .httpError st d => toString st ++ ": " ++ d
  | .validationError m => m
  | .attributeError m => m

/-- Model of `pd.isna` on a cell. -/
def pyIsNa : Cell → Bool
  | .na => true
  | _ => false

/-- Model of Python truthiness `bool(x)` on a cell: NaN is truthy, a string is
truthy iff non-empty, a number iff nonzero. -/
def pyTruthy : Cell → Bool
  | .na => true
  | .s v => v ≠ ""
  | .i v => v ≠ 0
  | .r v => v ≠ 0
  | .b v => v

/-- Decimal rendering of a rational for `str(float)`; exact when the
denominator divides a power of ten (all floats appearing in this development),
a fraction rendering otherwise. -/
def ratRepr (q : Rat) : String :=
  let sign := if q.num < 0 then "-" else ""
  let n := q.num.natAbs
  let d := q.den
  if d == 1 then sign ++ toString n ++ ".0"
  else
    match (List.range 31).find? (fun k => 10 ^ k % d == 0) with
    | some k =>
      let scaled := n * (10 ^ k / d)
      let ip := scaled / 10 ^ k
      let fp := scaled % 10 ^ k
      let fpStr := toString fp
      let pad := String.mk (List.replicate (k - fpStr.length) (Char.ofNat 48))
      sign ++ toString ip ++ "." ++ pad ++ fpStr
    | none => sign ++ toString n ++ "/" ++ toString d

/-- Model of Python `str(x)` on a cell: `str(nan) = "nan"`,
`str(True) = "True"`. -/
def pyStrCell : Cell → String
  | .na => "nan"
  | .s v => v
  | .i v => toString v
  | .r v => ratRepr v
  | .b v => if v then "True" else "False"

/-- Drop leading and trailing whitespace from a character list. -/
def trimChars (cs : List Char) : List Char :=
  ((cs.dropWhile Char.isWhitespace).reverse.dropWhile Char.isWhitespace).reverse

/-- Model of Python `str.strip()`. -/
def pyStrip (s : String) : String := String.mk (trimChars s.toList)

/-- Model of Python `str.endswith(suffix)`. -/
def pyEndsWith (s suffix : String) : Bool :=
  List.isPrefixOf suffix.toList.reverse s.toList.reverse

/-- Parse a list of decimal digit characters. -/
def digitsVal : List Char → Option Nat
  | [] => none
  | cs =>
    if cs.all Char.isDigit then
      some (cs.foldl (fun acc c => acc * 10 + (c.toNat - 48)) 0)
    else none

/-- Model of Python `int(s)` on a string: optional surrounding whitespace,
optional sign, decimal digits; anything else raises `ValueError`. -/
def pyIntStr (v : String) : Except PyErr Int :=
  let err : Except PyErr Int :=
    .error (.valueError ("invalid literal for int() with base 10: " ++ pyQuote ++ v ++ pyQuote))
  match trimChars v.toList with
  | [] => err
  | c :: cs =>
    if c == Char.ofNat 45 then
      match digitsVal cs with
      | some n => .ok (-(n : Int))
      | none => err
    else if c == Char.ofNat 43 then
      match digitsVal cs with
      | some n => .ok (n : Int)
      | none => err
    else
      match digitsVal (c :: cs) with
      | some n => .ok (n : Int)
      | none => err

/-- Truncation of a rational toward zero, matching Python `int(float)`. -/
def truncRat (q : Rat) : Int :=
  if 0 ≤ q then q.floor else -((-q).floor)

/-- Model of Python `int(x)` on a cell: floats truncate toward zero,
NaN raises `ValueError`, strings are parsed. -/
def pyInt : Cell → Except PyErr Int
  | .na => .error (.valueError "cannot convert float NaN to integer")
  | .s v => pyIntStr v
  | .i v => .ok v
  | .r v => .ok (truncRat v)
  | .b v => .ok (if v then 1 else 0)

/-- Parse a decimal string (optional sign, digits, optional fractional part)
into a rational; exponents and `inf`/`nan` literals are out of scope and
treated as parse failures. -/
def parseDecimal (t : String) : Option Rat :=
  let core (body : List Char) : Option (Nat × Nat) :=
    match body.splitOn (Char.ofNat 46) with
    | [ip] => (digitsVal ip).map (fun n => (n, 1))
    | [ip, fp] =>
      if ip.isEmpty && fp.isEmpty then none
      else
        let ipv : Option Nat := if ip.isEmpty then some 0 else digitsVal ip
        let fpv : Option Nat := if fp.isEmpty then some 0 else digitsVal fp
        match ipv, fpv with
        | some a, some b => some (a * 10 ^ fp.length + b, 10 ^ fp.length)
        | _, _ => none
    | _ => none
  match trimChars t.toList with
  | [] => none
  | c :: cs =>
    if c == Char.ofNat 45 then (core cs).map (fun p => mkRat (-(p.1 : Int)) p.2)
    else if c == Char.ofNat 43 then (core cs).map (fun p => mkRat (p.1 : Int) p.2)
    else (core (c :: cs)).map (fun p => mkRat (p.1 : Int) p.2)

/-- Model of Python `float(x)` on a cell: NaN stays NaN, strings are parsed
(`ValueError` on failure), numbers convert exactly. -/
def pyFloat : Cell → Except PyErr PyFloat
  | .na => .ok .nan
  | .s v =>
    match parseDecimal v with
    | some q => .ok (.val q)
    | none => .error (.valueError ("could not convert string to float: " ++ pyQuote ++ v ++ pyQuote))
  | .i v => .ok (.val (mkRat v 1))
  | .r v => .ok (.val v)
  | .b v => .ok (.val (mkRat (if v then 1 else 0) 1))

/-- Comparison `x < c` on a Python float; false when `x` is NaN. -/
def pfLt (x : PyFloat) (c : Rat) : Bool :=
  match x with
  | .nan => false
  | .val q => q < c

/-- Comparison `x > c` on a Python float; false when `x` is NaN. -/
def pfGt (x : PyFloat) (c : Rat) : Bool :=
  match x with
  | .nan => false
  | .val q => c < q

/-- Pydantic `ge`/`le` constraint check on a float: NaN satisfies no bound. -/
def pfInRange (x : PyFloat) (lo hi : Rat) : Bool :=
  match x with
  | .nan => false
  | .val q => lo ≤ q && q ≤ hi

/-- One row of a parsed DataFrame: column name to cell.  `df.iterrows` rows
always carry every column of the frame; `Table.Complete` captures that. -/
abbrev Row := List (String × Cell)

/-- Model of `row.get(c)` / `c in row` support: lookup of a column's cell. -/
def rowGet (r : Row) (c : String) : Option Cell := List.lookup c r

/-- Model of `c in row` (membership in the Series index). -/
def rowHas (r : Row) (c : String) : Bool := (rowGet r c).isSome

/-- A parsed DataFrame: header columns plus data rows. -/
structure Table where
  cols : List String
  rows : List Row
deriving DecidableEq, Repr

/-- Boolean form of row/header completeness: every row carries a cell for
every header column (always true for real pandas frames). -/
def Table.completeB (df : Table) : Bool :=
  df.rows.all (fun r => df.cols.all (fun c => rowHas r c))

/-- Every row carries a cell for every header column. -/
abbrev Table.Complete (df : Table) : Prop := df.completeB = true

/-- Structured per-row error entry `{row: .., [column: ..,] error: ..}`.
`row? = none` models the outermost-handler entry `{"error": str(e)}`,
which carries no row key. -/
structure ErrData where
  row? : Option Nat
  column? : Option String
  error : String
deriving DecidableEq, Repr

/-- Validator-style error with row and column. -/
def mkColErr (n : Nat) (c msg : String) : ErrData := ⟨some n, some c, msg⟩

/-- Importer-style error with row only. -/
def mkRowErr (n : Nat) (msg : String) : ErrData := ⟨some n, none, msg⟩

/-- Outermost-handler error with no row. -/
def mkPlainErr (msg : String) : ErrData := ⟨none, none, msg⟩

/-!
Persisted entities.  Each structure carries exactly the columns the import
pipeline reads or writes; columns the pipeline always leaves at their ORM
defaults (`geo_boundary`, `date_of_birth`, `photo_url`, `symbol_image_url` of
candidates, `religion_distribution`, `minority_groups`, `entered_by`,
`verified_by`, `verification_time`) and the base-model audit timestamps are
omitted from the embedding.
-/

/-- Division row (`app/models/geography.py`). -/
structure Division where
  id : Nat
  name : String
  code : String
  bengali_name : Option String
  total_population : Option Int
  total_voters : Option Int
deriving DecidableEq, Repr

/-- District row. -/
structure District where
  id : Nat
  name : String
  code : String
  bengali_name : Option String
  division_id : Nat
  area_sq_km : Option Int
  total_voters : Option Int
deriving DecidableEq, Repr

/-- Constituency row. -/
structure Constituency where
  id : Nat
  name : String
  number : String
  district_id : Nat
  area_description : Option String
  total_voters : Option Int
  is_active : Bool
deriving DecidableEq, Repr

/-- Party row (`app/models/candidate.py`). -/
structure Party where
  id : Nat
  name : String
  acronym : Option String
  symbol_name : Option String
  symbol_image_url : Option String
  color_code : Option String
  is_registered : Bool
deriving DecidableEq, Repr

/-- Candidate row. -/
structure Candidate where
  id : Nat
  full_name : String
  bengali_name : Option String
  age : Option Int
  education : Option String
  profession : Option String
  party_id : Nat
  constituency_id : Nat
  election_year : Int
  election_type : String
  candidate_number : Option String
  deposit_status : Option String
  is_active : Bool
deriving DecidableEq, Repr

/-- Polling center row (`app/models/election.py`). -/
structure PollingCenter where
  id : Nat
  code : String
  name : String
  constituency_id : Nat
  location : Option String
  latitude : Option PyFloat
  longitude : Option PyFloat
  total_voters : Option Int
  is_active : Bool
deriving DecidableEq, Repr

/-- Polling center result row. -/
structure PollingCenterResult where
  id : Nat
  polling_center_id : Nat
  candidate_id : Nat
  election_year : Int
  votes_received : Int
  vote_percentage : Option PyFloat
  is_valid : Bool
  remarks : Option String
deriving DecidableEq, Repr

/-- Voter demographics row.  `last_updated` holds a model timestamp. -/
structure VoterDemographics where
  id : Nat
  constituency_id : Nat
  election_year : Int
  total_voters : Int
  male_voters : Int
  female_voters : Int
  other_voters : Int
  age_18_25 : Int
  age_26_35 : Int
  age_36_45 : Int
  age_46_55 : Int
  age_56_65 : Int
  age_66_plus : Int
  source : Option String
  last_updated : Option Nat
deriving DecidableEq, Repr

/-- Constituency result row. -/
structure ConstituencyResult where
  id : Nat
  constituency_id : Nat
  election_year : Int
  election_type : String
  total_votes : Int
  valid_votes : Int
  rejected_votes : Int
  turnout_percentage : PyFloat
  winning_candidate_id : Option Nat
  winning_party_id : Option Nat
  margin_votes : Option Int
  margin_percentage : Option PyFloat
  is_official : Bool
  declared_at : Option Nat
deriving DecidableEq, Repr

/-- Import log audit record (`app/models/election.py`, `ImportLog`). -/
structure ImportLogRec where
  import_type : String
  file_name : String
  total_rows : Nat
  successful_rows : Nat
  failed_rows : Nat
  errors : List ErrData
  user_id : Nat
  status : String
deriving DecidableEq, Repr

/-- The persisted store: one list per table, plus a fresh-id counter
modelling the auto-increment primary-key supply. -/
structure DB where
  nextId : Nat
  divisions : List Division
  districts : List District
  constituencies : List Constituency
  parties : List Party
  candidates : List Candidate
  pollingCenters : List PollingCenter
  pollingResults : List PollingCenterResult
  voterDemographics : List VoterDemographics
  constituencyResults : List ConstituencyResult
deriving DecidableEq, Repr

/-- The report every importer returns
(`{total_rows, successful_rows, failed_rows, errors}`). -/
structure ImportReport where
  total_rows : Nat
  successful_rows : Nat
  failed_rows : Nat
  errors : List ErrData
deriving DecidableEq, Repr

/-!
Generic per-row upsert runner.  Every importer in `csv_import.py` follows the
same shape: per row, resolve natural-key references (recording a row failure
and continuing when one is missing, or when any exception is raised), look up
the target entity by its natural key, then either mutate the found entity in
place or construct a create-schema (pydantic validation) and insert through
the crud layer.  `UOps` captures one importer's row logic; `urun` is the loop
with the `try/except`-per-row counting.  All messages are already
stringified (`pyErrStr`) at this level.
-/

/-- One importer's per-row operations over entity type `E` with natural key
`K`.  `key` resolves references and computes the lookup key (its `.error` is
the recorded row failure); `upd` builds the in-place mutation of the update
path; `mk` builds the new entity of the create path from the key, the row, a
fresh id, and the current table contents (for the crud-layer existence
re-check). -/
structure UOps (K E : Type) where
  key : Row → Except String K
  upd : Row → Except String (E → E)
  mkE : K → Row → Nat → List E → Except String E
  keyOf : E → K

/-- Replace the element at index `i` (no-op when out of range). -/
def modifyAt (f : α → α) : Nat → List α → List α
  | _, [] => []
  | 0, a :: l => f a :: l
  | n + 1, a :: l => a :: modifyAt f n l

/-- Index of the first entity whose key matches, modelling
`db.query(..).filter(<natural key>).first()`. -/
def findKIdx {K E : Type} [BEq K] (keyOf : E → K) (k : K) : List E → Option Nat
  | [] => none
  | e :: es => if keyOf e == k then some 0 else (findKIdx keyOf k es).map (· + 1)

/-- One row of the upsert loop: on `some msg` the row failed and the state is
unchanged (every raise point in the source precedes any mutation of the row's
target). -/
def ustep {K E : Type} [BEq K] (ops : UOps K E) (es : List E) (nid : Nat) (row : Row) :
    (List E × Nat) × Option String :=
  match ops.key row with
  | .error m => ((es, nid), some m)
  | .ok k =>
    match findKIdx ops.keyOf k es with
    | some i =>
      match ops.upd row with
      | .error m => ((es, nid), some m)
      | .ok u => ((modifyAt u i es, nid), none)
    | none =>
      match ops.mkE k row nid es with
      | .error m => ((es, nid), some m)
      | .ok e => ((es ++ [e], nid + 1), none)

/-- Result of one importer's row loop: final table contents, final fresh-id
counter, and the success/failure tallies. -/
structure RunRes (E : Type) where
  es : List E
  nid : Nat
  succ : Nat
  fail : Nat
  errs : List ErrData
deriving DecidableEq, Repr

/-- The row loop: threads the table contents and fresh-id counter, counts
successes and failures, and accumulates `{row: idx+2, error: msg}` entries. -/
def urun {K E : Type} [BEq K] (ops : UOps K E) (es : List E) (nid idx : Nat) :
    List Row → RunRes E
  | [] => ⟨es, nid, 0, 0, []⟩
  | r :: rs =>
    match ustep ops es nid r with
    | ((es', nid'), none) =>
      let u := urun ops es' nid' (idx + 1) rs
      { u with succ := u.succ + 1 }
    | ((es', nid'), some m) =>
      let u := urun ops es' nid' (idx + 1) rs
      { u with fail := u.fail + 1, errs := mkRowErr (idx + 2) m :: u.errs }

/-- Run one importer over a table and shape the report. -/
def runImport {K E : Type} [BEq K] (ops : UOps K E) (es : List E) (nid : Nat)
    (rows : List Row) : (List E × Nat) × ImportReport :=
  let u := urun ops es nid 0 rows
  ((u.es, u.nid), ⟨rows.length, u.succ, u.fail, u.errs⟩)

/-!
Field-extraction helpers shared by the importers, each modelling one
recurring Python expression over a row.  Errors are already stringified.
-/

/-- Model of `row[c]`: `KeyError` when the column is absent. -/
def getE (r : Row) (c : String) : Except PyErr Cell :=
  match rowGet r c with
  | some cell => .ok cell
  | none => .error (.keyError c)

/-- Stringified-error form of `row[c]`. -/
def getS (r : Row) (c : String) : Except String Cell :=
  (getE r c).mapError pyErrStr

/-- Model of `str(row[c]).strip()`. -/
def strFieldS (r : Row) (c : String) : Except String String := do
  pure (pyStrip (pyStrCell (← getS r c)))

/-- Model of `str(row[c]).strip() if c in row and pd.notna(row[c]) else None`. -/
def optStrField (r : Row) (c : String) : Option String :=
  match rowGet r c with
  | some cell => if pyIsNa cell then none else some (pyStrip (pyStrCell cell))
  | none => none

/-- Model of `str(row[c]).strip() if c in row else None` (no NaN guard, as in
the division/district/constituency importers: a NaN cell yields `"nan"`). -/
def optStrFieldNoNa (r : Row) (c : String) : Option String :=
  match rowGet r c with
  | some cell => some (pyStrip (pyStrCell cell))
  | none => none

/-- Model of `int(row[c])`. -/
def intFieldS (r : Row) (c : String) : Except String Int := do
  (pyInt (← getS r c)).mapError pyErrStr

/-- Model of `int(row[c]) if c in row and pd.notna(row[c]) else None`. -/
def optIntFieldS (r : Row) (c : String) : Except String (Option Int) :=
  match rowGet r c with
  | some cell =>
    if pyIsNa cell then pure none
    else do pure (some (← (pyInt cell).mapError pyErrStr))
  | none => pure none

/-- Model of `int(row[c]) if c in row and pd.notna(row[c]) else 0`. -/
def intFieldD0 (r : Row) (c : String) : Except String Int :=
  match rowGet r c with
  | some cell =>
    if pyIsNa cell then pure 0
    else (pyInt cell).mapError pyErrStr
  | none => pure 0

/-- Model of `float(row[c])`. -/
def floatFieldS (r : Row) (c : String) : Except String PyFloat := do
  (pyFloat (← getS r c)).mapError pyErrStr

/-- Model of `float(row[c]) if c in row and pd.notna(row[c]) else None`. -/
def optFloatFieldS (r : Row) (c : String) : Except String (Option PyFloat) :=
  match rowGet r c with
  | some cell =>
    if pyIsNa cell then pure none
    else do pure (some (← (pyFloat cell).mapError pyErrStr))
  | none => pure none

/-- Model of `bool(row[c]) if c in row else d` (Python truthiness of the raw
cell, no NaN guard). -/
def boolFieldD (r : Row) (c : String) (d : Bool) : Bool :=
  match rowGet r c with
  | some cell => pyTruthy cell
  | none => d

/-- Model of `row.get("is_official") == True`: only a genuine `True` bool or
the numbers `1`/`1.0` compare equal to `True` in Python. -/
def cellEqTrue (oc : Option Cell) : Bool :=
  match oc with
  | some (.b true) => true
  | some (.i v) => v == 1
  | some (.r q) => q == 1
  | _ => false

/-- Turn a natural-key lookup result into the importer's
record-an-error-and-continue failure. -/
def resolveE (o : Option α) (msg : String) : Except String α :=
  match o with
  | some a => .ok a
  | none => .error msg

/-- Pydantic length constraint `min_length ≤ len ≤ max_length`. -/
def strLenBetween (s : String) (lo hi : Nat) : Bool :=
  decide (lo ≤ s.length) && decide (s.length ≤ hi)

/-- Pydantic `max_length` on an optional string (None passes). -/
def optLenLe (o : Option String) (hi : Nat) : Bool :=
  match o with
  | none => true
  | some s => decide (s.length ≤ hi)

/-- Pydantic `ge=lo, le=hi` on an optional int. -/
def optIntBetween (o : Option Int) (lo hi : Int) : Bool :=
  match o with
  | none => true
  | some v => decide (lo ≤ v) && decide (v ≤ hi)

/-- Pydantic `ge=0` on an optional int. -/
def optNonNegI (o : Option Int) : Bool :=
  match o with
  | none => true
  | some v => decide (0 ≤ v)

/-- Pydantic range constraint on an optional float (None passes, NaN fails). -/
def optPfOk (o : Option PyFloat) (lo hi : Rat) : Bool :=
  match o with
  | none => true
  | some x => pfInRange x lo hi

/-- Pydantic pattern `^#[0-9A-Fa-f]{6}$`. -/
def hexColorOk (s : String) : Bool :=
  match s.toList with
  | c :: rest =>
    c == Char.ofNat 35 && rest.length == 6 &&
      rest.all (fun ch => ch.isDigit || (Char.ofNat 65 ≤ ch && ch ≤ Char.ofNat 70) ||
        (Char.ofNat 97 ≤ ch && ch ≤ Char.ofNat 102))
  | [] => false

/-- Pydantic pattern check on an optional string (None passes). -/
def optHexOk (o : Option String) : Bool :=
  match o with
  | none => true
  | some s => hexColorOk s

/-- Representative `str(ValidationError)` text; the real pydantic message is
multi-line and version-dependent, and no theorem depends on it. -/
def pydMsg (model : String) : String := "1 validation error for " ++ model

/-- Message of the `AttributeError` raised when the geography importers pass a
plain dict where `crud_*.update` expects a pydantic model
(`obj_in.model_dump(exclude_unset=True)`). -/
def dictModelDumpMsg : String :=
  pyQuote ++ "dict" ++ pyQuote ++ " object has no attribute " ++ pyQuote ++ "model_dump" ++ pyQuote

/-- Importer-side cross-field arithmetic failure message. -/
def voteMismatchMsg (valid rejected total : Int) : String :=
  "Valid votes (" ++ toString valid ++ ") + Rejected votes (" ++ toString rejected ++
    ") must equal Total votes (" ++ toString total ++ ")"

/-- Importer-side gender-sum failure message. -/
def genderCheckMsg (g t : Int) : String :=
  "Sum of gender voters (" ++ toString g ++ ") exceeds total voters (" ++ toString t ++ ")"

/-!
Division importer (`import_division_data`, csv_import.py lines 152-197).
-/

/-- Division natural key: `str(row["code"]).strip()`
(lookup `crud_division.get_by_code`). -/
def divisionKey (r : Row) : Except String String := strFieldS r "code"

/-- Division update path: builds the `update_data` dict (in source order),
then calls `crud_division.update` with that plain dict, which raises
`AttributeError` on `obj_in.model_dump` before any field is written. -/
def divisionUpd (r : Row) : Except String (Division → Division) := do
  let _ ← strFieldS r "name"
  let _ := optStrFieldNoNa r "bengali_name"
  let _ ← optIntFieldS r "total_population"
  let _ ← optIntFieldS r "total_voters"
  .error dictModelDumpMsg

/-- Division create path: `DivisionCreate` pydantic validation (name 2-100,
code 2-10, bengali_name ≤ 100 chars) and `crud_division.create`'s
same-code-or-same-name existence check. -/
def divisionMk (k : String) (r : Row) (nid : Nat) (es : List Division) :
    Except String Division := do
  let name ← strFieldS r "name"
  let bengali := optStrFieldNoNa r "bengali_name"
  let pop ← optIntFieldS r "total_population"
  let voters ← optIntFieldS r "total_voters"
  if ¬ (strLenBetween name 2 100 && strLenBetween k 2 10 && optLenLe bengali 100) then
    .error (pydMsg "DivisionCreate")
  else if es.any (fun d => d.code == k || d.name == name) then
    .error (pyErrStr (.httpError 400 "Division with this code or name already exists"))
  else
    .ok ⟨nid, name, k, bengali, pop, voters⟩

/-- Per-row operations of the division importer. -/
def divisionOps : UOps String Division :=
  ⟨divisionKey, divisionUpd, divisionMk, Division.code⟩

/-- Model of `import_division_data(db, df)`. -/
def import_division_data (db : DB) (df : Table) : DB × ImportReport :=
  let ((ds, nid), rep) := runImport divisionOps db.divisions db.nextId df.rows
  ({ db with divisions := ds, nextId := nid }, rep)

/-!
District importer (`import_district_data`, lines 200-262).  The divisions
table is never mutated by this importer, so resolving against the initial
divisions list coincides with the live queries of the source.
-/

/-- District key: parent division resolved by name, then
`(code, division_id)`. -/
def districtKey (divs : List Division) (r : Row) : Except String (String × Nat) := do
  let dname ← strFieldS r "division_name"
  let dv ← resolveE (divs.find? (fun d => d.name == dname)) ("Division not found: " ++ dname)
  let code ← strFieldS r "code"
  pure (code, dv.id)

/-- District update path: dict built, then `crud_district.update` raises
`AttributeError` on the dict. -/
def districtUpd (r : Row) : Except String (District → District) := do
  let _ ← strFieldS r "name"
  let _ := optStrFieldNoNa r "bengali_name"
  let _ ← optIntFieldS r "area_sq_km"
  let _ ← optIntFieldS r "total_voters"
  .error dictModelDumpMsg

/-- District create path: `DistrictCreate` pydantic checks and
`crud_district.create`'s (code, division) existence check. -/
def districtMk (k : String × Nat) (r : Row) (nid : Nat) (es : List District) :
    Except String District := do
  let name ← strFieldS r "name"
  let bengali := optStrFieldNoNa r "bengali_name"
  let area ← optIntFieldS r "area_sq_km"
  let voters ← optIntFieldS r "total_voters"
  if ¬ (strLenBetween name 2 100 && strLenBetween k.1 2 10 && optLenLe bengali 100) then
    .error (pydMsg "DistrictCreate")
  else if es.any (fun d => d.code == k.1 && d.division_id == k.2) then
    .error (pyErrStr (.httpError 400 "District with this code already exists in this division"))
  else
    .ok ⟨nid, name, k.1, bengali, k.2, area, voters⟩

/-- Per-row operations of the district importer. -/
def districtOps (divs : List Division) : UOps (String × Nat) District :=
  ⟨districtKey divs, districtUpd, districtMk, fun d => (d.code, d.division_id)⟩

/-- Model of `import_district_data(db, df)`. -/
def import_district_data (db : DB) (df : Table) : DB × ImportReport :=
  let ((ds, nid), rep) := runImport (districtOps db.divisions) db.districts db.nextId df.rows
  ({ db with districts := ds, nextId := nid }, rep)

/-!
Constituency importer (`import_constituency_data`, lines 265-341).
-/

/-- Constituency key: parent division then district resolved by name, then
`(number, district_id)`. -/
def constituencyKey (divs : List Division) (dists : List District) (r : Row) :
    Except String (String × Nat) := do
  let dname ← strFieldS r "division_name"
  let dtname ← strFieldS r "district_name"
  let dv ← resolveE (divs.find? (fun d => d.name == dname)) ("Division not found: " ++ dname)
  let dt ← resolveE (dists.find? (fun d => d.name == dtname && d.division_id == dv.id))
      ("District not found: " ++ dtname ++ " in " ++ dname)
  let num ← strFieldS r "number"
  pure (num, dt.id)

/-- Constituency update path: dict built, then `crud_constituency.update`
raises `AttributeError` on the dict. -/
def constituencyUpd (r : Row) : Except String (Constituency → Constituency) := do
  let _ ← strFieldS r "name"
  let _ := optStrFieldNoNa r "area_description"
  let _ ← optIntFieldS r "total_voters"
  let _ := boolFieldD r "is_active" true
  .error dictModelDumpMsg

/-- Constituency create path: `ConstituencyCreate` pydantic checks and
`crud_constituency.create`'s (number, district) existence check. -/
def constituencyMk (k : String × Nat) (r : Row) (nid : Nat) (es : List Constituency) :
    Except String Constituency := do
  let name ← strFieldS r "name"
  let area := optStrFieldNoNa r "area_description"
  let voters ← optIntFieldS r "total_voters"
  let active := boolFieldD r "is_active" true
  if ¬ (strLenBetween name 2 200 && strLenBetween k.1 1 10) then
    .error (pydMsg "ConstituencyCreate")
  else if es.any (fun c => c.number == k.1 && c.district_id == k.2) then
    .error (pyErrStr (.httpError 400 "Constituency with this number already exists in this district"))
  else
    .ok ⟨nid, name, k.1, k.2, area, voters, active⟩

/-- Per-row operations of the constituency importer. -/
def constituencyOps (divs : List Division) (dists : List District) :
    UOps (String × Nat) Constituency :=
  ⟨constituencyKey divs dists, constituencyUpd, constituencyMk, fun c => (c.number, c.district_id)⟩

/-- Model of `import_constituency_data(db, df)`. -/
def import_constituency_data (db : DB) (df : Table) : DB × ImportReport :=
  let ((cs, nid), rep) :=
    runImport (constituencyOps db.divisions db.districts) db.constituencies db.nextId df.rows
  ({ db with constituencies := cs, nextId := nid }, rep)

/-!
Party importer (`import_party_data`, lines 537-594).  Update and create both
compute the same optional-field expressions from the row; `partyUpdVals`
names them once.
-/

/-- The four non-key party fields as computed from a row (shared verbatim by
the update dict and `PartyCreate`). -/
def partyUpdVals (r : Row) : Option String × Option String × Option String × Bool :=
  (optStrField r "acronym", optStrField r "symbol_name", optStrField r "color_code",
   boolFieldD r "is_registered" true)

/-- Party key: `str(row["name"]).strip()`. -/
def partyKey (r : Row) : Except String String := strFieldS r "name"

/-- Party update path: direct `setattr` of the four fields (no pydantic). -/
def partyUpd (r : Row) : Except String (Party → Party) :=
  let v := partyUpdVals r
  .ok (fun p => { p with
    acronym := v.1
    symbol_name := v.2.1
    color_code := v.2.2.1
    is_registered := v.2.2.2 })

/-- Party create path: `PartyCreate` pydantic checks (name 2-200,
acronym ≤ 50, symbol_name ≤ 100, color_code hex pattern) and
`crud_party.create`'s name existence check. -/
def partyMk (k : String) (r : Row) (nid : Nat) (es : List Party) : Except String Party :=
  let v := partyUpdVals r
  if ¬ (strLenBetween k 2 200 && optLenLe v.1 50 && optLenLe v.2.1 100 && optHexOk v.2.2.1) then
    .error (pydMsg "PartyCreate")
  else if es.any (fun p => p.name == k) then
    .error (pyErrStr (.httpError 400 "Party with this name already exists"))
  else
    .ok ⟨nid, k, v.1, v.2.1, none, v.2.2.1, v.2.2.2⟩

/-- Per-row operations of the party importer. -/
def partyOps : UOps String Party := ⟨partyKey, partyUpd, partyMk, Party.name⟩

/-- Model of `import_party_data(db, df, user_id)`. -/
def import_party_data (db : DB) (df : Table) (user_id : Nat) : DB × ImportReport :=
  let ((ps, nid), rep) := runImport partyOps db.parties db.nextId df.rows
  ({ db with parties := ps, nextId := nid }, rep)

/-!
Candidate importer (`import_candidate_data`, lines 411-507).  Parties and
constituencies are never mutated by this importer, so resolving against the
initial lists coincides with the live queries.
-/

/-- Candidate reference resolution, in source order: party by name,
constituency by number, then the composite identity
`(full_name, constituency_id, election_year)`. -/
def candidateKeyRes (parties : List Party) (consts : List Constituency) (r : Row) :
    Except String (Party × Constituency × (String × Nat × Int)) := do
  let pname ← strFieldS r "party_name"
  let party ← resolveE (parties.find? (fun p => p.name == pname)) ("Party not found: " ++ pname)
  let cnum ← strFieldS r "constituency_number"
  let c ← resolveE (consts.find? (fun x => x.number == cnum)) ("Constituency not found: " ++ cnum)
  let fname ← strFieldS r "full_name"
  let year ← intFieldS r "election_year"
  pure (party, c, (fname, c.id, year))

/-- Candidate key. -/
def candidateKey (parties : List Party) (consts : List Constituency) (r : Row) :
    Except String (String × Nat × Int) :=
  (candidateKeyRes parties consts r).map (fun x => x.2.2)

/-- The candidate fields written by the update path, computed in the source's
`update_data` dict order (only `age` can raise). -/
def candidateUpd (parties : List Party) (consts : List Constituency) (r : Row) :
    Except String (Candidate → Candidate) := do
  let pr ← candidateKeyRes parties consts r
  let bengali := optStrField r "bengali_name"
  let age ← optIntFieldS r "age"
  let edu := optStrField r "education"
  let prof := optStrField r "profession"
  let cnumb := optStrField r "candidate_number"
  let dep := optStrField r "deposit_status"
  let active := boolFieldD r "is_active" true
  pure (fun e => { e with
    bengali_name := bengali
    age := age
    education := edu
    profession := prof
    candidate_number := cnumb
    deposit_status := dep
    party_id := pr.1.id
    is_active := active })

/-- Candidate create path: the `CandidateCreate` arguments in order, pydantic
validation (full_name 2-200, bengali ≤ 200, age 21-150, education ≤ 300,
profession ≤ 200, year 1970-2100, election_type enum, candidate_number ≤ 20,
deposit_status ≤ 50), and `crud_candidate.create`'s identity re-check. -/
def candidateMk (parties : List Party) (consts : List Constituency)
    (k : String × Nat × Int) (r : Row) (nid : Nat) (es : List Candidate) :
    Except String Candidate := do
  let pr ← candidateKeyRes parties consts r
  let bengali := optStrField r "bengali_name"
  let age ← optIntFieldS r "age"
  let edu := optStrField r "education"
  let prof := optStrField r "profession"
  let etype ← strFieldS r "election_type"
  let cnumb := optStrField r "candidate_number"
  let dep := optStrField r "deposit_status"
  let active := boolFieldD r "is_active" true
  if ¬ (strLenBetween k.1 2 200 && optLenLe bengali 200 && optIntBetween age 21 150 &&
        optLenLe edu 300 && optLenLe prof 200 && decide (1970 ≤ k.2.2) && decide (k.2.2 ≤ 2100) &&
        (etype == "National" || etype == "Local" || etype == "Upazila" || etype == "City") &&
        optLenLe cnumb 20 && optLenLe dep 50) then
    .error (pydMsg "CandidateCreate")
  else if es.any (fun e => e.full_name == k.1 && e.constituency_id == k.2.1 &&
      e.election_year == k.2.2) then
    .error (pyErrStr (.httpError 400 "Candidate already exists for this constituency and election year"))
  else
    .ok ⟨nid, k.1, bengali, age, edu, prof, pr.1.id, k.2.1, k.2.2, etype, cnumb, dep, active⟩

/-- Per-row operations of the candidate importer. -/
def candidateOps (parties : List Party) (consts : List Constituency) :
    UOps (String × Nat × Int) Candidate :=
  ⟨candidateKey parties consts, candidateUpd parties consts, candidateMk parties consts,
   fun e => (e.full_name, e.constituency_id, e.election_year)⟩

/-- Model of `import_candidate_data(db, df, user_id)`. -/
def import_candidate_data (db : DB) (df : Table) (user_id : Nat) : DB × ImportReport :=
  let ((cs, nid), rep) :=
    runImport (candidateOps db.parties db.constituencies) db.candidates db.nextId df.rows
  ({ db with candidates := cs, nextId := nid }, rep)

/-!
Polling center importer (`import_polling_center_data`, lines 658-732).
-/

/-- Polling center key: constituency resolved by number first, then the
globally unique `code`. -/
def pollingCenterKey (consts : List Constituency) (r : Row) : Except String String := do
  let cnum ← strFieldS r "constituency_number"
  let _ ← resolveE (consts.find? (fun c => c.number == cnum)) ("Constituency not found: " ++ cnum)
  strFieldS r "code"

/-- Polling center update path: direct `setattr` of the update dict. -/
def pollingCenterUpd (consts : List Constituency) (r : Row) :
    Except String (PollingCenter → PollingCenter) := do
  let cnum ← strFieldS r "constituency_number"
  let c ← resolveE (consts.find? (fun x => x.number == cnum)) ("Constituency not found: " ++ cnum)
  let name ← strFieldS r "name"
  let loc := optStrField r "location"
  let lat ← optFloatFieldS r "latitude"
  let lon ← optFloatFieldS r "longitude"
  let voters ← optIntFieldS r "total_voters"
  let active := boolFieldD r "is_active" true
  pure (fun e => { e with
    name := name
    constituency_id := c.id
    location := loc
    latitude := lat
    longitude := lon
    total_voters := voters
    is_active := active })

/-- Polling center create path: `PollingCenterCreate` pydantic checks
(name 2-300, code 2-50, location ≤ 500, latitude/longitude ranges,
total_voters ≥ 0) and `crud_polling_center.create`'s code existence check. -/
def pollingCenterMk (consts : List Constituency) (k : String) (r : Row) (nid : Nat)
    (es : List PollingCenter) : Except String PollingCenter := do
  let cnum ← strFieldS r "constituency_number"
  let c ← resolveE (consts.find? (fun x => x.number == cnum)) ("Constituency not found: " ++ cnum)
  let name ← strFieldS r "name"
  let loc := optStrField r "location"
  let lat ← optFloatFieldS r "latitude"
  let lon ← optFloatFieldS r "longitude"
  let voters ← optIntFieldS r "total_voters"
  let active := boolFieldD r "is_active" true
  if ¬ (strLenBetween name 2 300 && strLenBetween k 2 50 && optLenLe loc 500 &&
        optPfOk lat (-90) 90 && optPfOk lon (-180) 180 && optNonNegI voters) then
    .error (pydMsg "PollingCenterCreate")
  else if es.any (fun p => p.code == k) then
    .error (pyErrStr (.httpError 400 "Polling center with this code already exists"))
  else
    .ok ⟨nid, k, name, c.id, loc, lat, lon, voters, active⟩

/-- Per-row operations of the polling center importer. -/
def pollingCenterOps (consts : List Constituency) : UOps String PollingCenter :=
  ⟨pollingCenterKey consts, pollingCenterUpd consts, pollingCenterMk consts, PollingCenter.code⟩

/-- Model of `import_polling_center_data(db, df, user_id)`. -/
def import_polling_center_data (db : DB) (df : Table) (user_id : Nat) : DB × ImportReport :=
  let ((ps, nid), rep) :=
    runImport (pollingCenterOps db.constituencies) db.pollingCenters db.nextId df.rows
  ({ db with pollingCenters := ps, nextId := nid }, rep)

/-!
Polling result importer (`import_polling_result_data`, lines 781-878).
-/

/-- Polling result key: polling center by code, constituency by number,
candidate by composite identity, then
`(polling_center_id, candidate_id, election_year)`. -/
def pollingResultKey (centers : List PollingCenter) (consts : List Constituency)
    (cands : List Candidate) (r : Row) : Except String (Nat × Nat × Int) := do
  let ccode ← strFieldS r "polling_center_code"
  let pc ← resolveE (centers.find? (fun p => p.code == ccode)) ("Polling center not found: " ++ ccode)
  let cnum ← strFieldS r "constituency_number"
  let c ← resolveE (consts.find? (fun x => x.number == cnum)) ("Constituency not found: " ++ cnum)
  let cname ← strFieldS r "candidate_name"
  let year ← intFieldS r "election_year"
  let cand ← resolveE
      (cands.find? (fun e => e.full_name == cname && e.constituency_id == c.id &&
        e.election_year == year))
      ("Candidate not found: " ++ cname ++ " in constituency " ++ cnum ++ " for year " ++
        toString year)
  pure (pc.id, cand.id, year)

/-- Polling result update path: overwrite `votes_received`, reset
`vote_percentage` to the unset placeholder. -/
def pollingResultUpd (r : Row) : Except String (PollingCenterResult → PollingCenterResult) := do
  let v ← intFieldS r "votes_received"
  pure (fun e => { e with
    votes_received := v
    vote_percentage := none })

/-- Polling result create path: `PollingCenterResultCreate` pydantic checks
(votes ≥ 0) and the crud identity re-check. -/
def pollingResultMk (k : Nat × Nat × Int) (r : Row) (nid : Nat)
    (es : List PollingCenterResult) : Except String PollingCenterResult := do
  let v ← intFieldS r "votes_received"
  let valid := boolFieldD r "is_valid" true
  let remarks := optStrField r "remarks"
  if ¬ decide (0 ≤ v) then .error (pydMsg "PollingCenterResultCreate")
  else if es.any (fun e => e.polling_center_id == k.1 && e.candidate_id == k.2.1 &&
      e.election_year == k.2.2) then
    .error (pyErrStr (.httpError 400 "Result already exists for this polling center and candidate"))
  else
    .ok ⟨nid, k.1, k.2.1, k.2.2, v, none, valid, remarks⟩

/-- Per-row operations of the polling result importer. -/
def pollingResultOps (centers : List PollingCenter) (consts : List Constituency)
    (cands : List Candidate) : UOps (Nat × Nat × Int) PollingCenterResult :=
  ⟨pollingResultKey centers consts cands, pollingResultUpd, pollingResultMk,
   fun e => (e.polling_center_id, e.candidate_id, e.election_year)⟩

/-- Model of `import_polling_result_data(db, df, user_id)`. -/
def import_polling_result_data (db : DB) (df : Table) (user_id : Nat) : DB × ImportReport :=
  let ((ps, nid), rep) :=
    runImport (pollingResultOps db.pollingCenters db.constituencies db.candidates)
      db.pollingResults db.nextId df.rows
  ({ db with pollingResults := ps, nextId := nid }, rep)

/-!
Voter demographics importer (`import_voter_demographics_data`, lines
931-1040).
-/

/-- The twelve demographics values computed from a row, shared verbatim by
the update dict and `VoterDemographicsCreate`. -/
structure VDVals where
  total : Int
  male : Int
  female : Int
  other : Int
  a1 : Int
  a2 : Int
  a3 : Int
  a4 : Int
  a5 : Int
  a6 : Int
  source : Option String
deriving DecidableEq, Repr

/-- Compute the demographics values in source order. -/
def voterDemoVals (r : Row) : Except String VDVals := do
  let total ← intFieldS r "total_voters"
  let male ← intFieldD0 r "male_voters"
  let female ← intFieldD0 r "female_voters"
  let other ← intFieldD0 r "other_voters"
  let a1 ← intFieldD0 r "age_18_25"
  let a2 ← intFieldD0 r "age_26_35"
  let a3 ← intFieldD0 r "age_36_45"
  let a4 ← intFieldD0 r "age_46_55"
  let a5 ← intFieldD0 r "age_56_65"
  let a6 ← intFieldD0 r "age_66_plus"
  pure ⟨total, male, female, other, a1, a2, a3, a4, a5, a6, optStrField r "source"⟩

/-- Voter demographics key: constituency by number, then
`(constituency_id, election_year)`. -/
def voterDemoKey (consts : List Constituency) (r : Row) : Except String (Nat × Int) := do
  let cnum ← strFieldS r "constituency_number"
  let c ← resolveE (consts.find? (fun x => x.number == cnum)) ("Constituency not found: " ++ cnum)
  let year ← intFieldS r "election_year"
  pure (c.id, year)

/-- Voter demographics update path: post-merge gender-sum check, then
`setattr` of all fields and a fresh `last_updated`. -/
def voterDemoUpd (now : Nat) (r : Row) : Except String (VoterDemographics → VoterDemographics) := do
  let v ← voterDemoVals r
  let g := v.male + v.female + v.other
  if g > v.total then .error (genderCheckMsg g v.total)
  else
    pure (fun e => { e with
      total_voters := v.total
      male_voters := v.male
      female_voters := v.female
      other_voters := v.other
      age_18_25 := v.a1
      age_26_35 := v.a2
      age_36_45 := v.a3
      age_46_55 := v.a4
      age_56_65 := v.a5
      age_66_plus := v.a6
      source := v.source
      last_updated := some now })

/-- Voter demographics create path: `VoterDemographicsCreate` pydantic checks
(every count ≥ 0; its `total_voters` field validator compares against the
not-yet-validated gender fields, i.e. pydantic defaults of 0, so it never
fires for a non-negative total), then the explicit gender-sum check, the crud
re-check, and insertion (the crud layer sets `last_updated = created_at`). -/
def voterDemoMk (now : Nat) (k : Nat × Int) (r : Row) (nid : Nat)
    (es : List VoterDemographics) : Except String VoterDemographics := do
  let v ← voterDemoVals r
  if ¬ (decide (0 ≤ v.total) && decide (0 ≤ v.male) && decide (0 ≤ v.female) &&
        decide (0 ≤ v.other) && decide (0 ≤ v.a1) && decide (0 ≤ v.a2) && decide (0 ≤ v.a3) &&
        decide (0 ≤ v.a4) && decide (0 ≤ v.a5) && decide (0 ≤ v.a6) &&
        decide ((0 : Int) + 0 + 0 ≤ v.total)) then
    .error (pydMsg "VoterDemographicsCreate")
  else
    let g := v.male + v.female + v.other
    if g > v.total then .error (genderCheckMsg g v.total)
    else if es.any (fun e => e.constituency_id == k.1 && e.election_year == k.2) then
      .error (pyErrStr (.httpError 400 "Voter demographics already exists for this constituency and election year"))
    else
      .ok ⟨nid, k.1, k.2, v.total, v.male, v.female, v.other, v.a1, v.a2, v.a3, v.a4,
        v.a5, v.a6, v.source, some now⟩

/-- Per-row operations of the voter demographics importer. -/
def voterDemoOps (now : Nat) (consts : List Constituency) : UOps (Nat × Int) VoterDemographics :=
  ⟨voterDemoKey consts, voterDemoUpd now, voterDemoMk now,
   fun e => (e.constituency_id, e.election_year)⟩

/-- Model of `import_voter_demographics_data(db, df, user_id)`; `now` models
`datetime.utcnow()` during the call. -/
def import_voter_demographics_data (now : Nat) (db : DB) (df : Table) (user_id : Nat) :
    DB × ImportReport :=
  let ((vs, nid), rep) :=
    runImport (voterDemoOps now db.constituencies) db.voterDemographics db.nextId df.rows
  ({ db with voterDemographics := vs, nextId := nid }, rep)

/-!
Constituency result importer (`import_constituency_result_data`, lines
1110-1249).
-/

/-- Resolved references of a constituency-result row, in source order:
constituency by number, election year, election type (defaulting to
`"National"` when the column is absent), then the optional winning
candidate/party. -/
structure CRRefs where
  c : Constituency
  year : Int
  etype : String
  wc : Option Candidate
  wp : Option Party
deriving Repr

/-- Reference resolution for one constituency-result row. -/
def crKeyRes (consts : List Constituency) (cands : List Candidate) (parties : List Party)
    (r : Row) : Except String CRRefs := do
  let cnum ← strFieldS r "constituency_number"
  let c ← resolveE (consts.find? (fun x => x.number == cnum)) ("Constituency not found: " ++ cnum)
  let year ← intFieldS r "election_year"
  let etype := pyStrip (pyStrCell (match rowGet r "election_type" with
    | some cell => cell
    | none => Cell.s "National"))
  let wc ← match rowGet r "winning_candidate_name" with
    | some cell =>
      if pyIsNa cell then pure none
      else
        let nm := pyStrip (pyStrCell cell)
        match cands.find? (fun e => e.full_name == nm && e.constituency_id == c.id &&
            e.election_year == year) with
        | some cand => pure (some cand)
        | none => Except.error ("Winning candidate not found: " ++ nm)
    | none => pure none
  let wp ← match rowGet r "winning_party_name" with
    | some cell =>
      if pyIsNa cell then pure none
      else
        let nm := pyStrip (pyStrCell cell)
        match parties.find? (fun p => p.name == nm) with
        | some party => pure (some party)
        | none => Except.error ("Winning party not found: " ++ nm)
    | none => pure none
  pure ⟨c, year, etype, wc, wp⟩

/-- Constituency result key `(constituency_id, election_year, election_type)`. -/
def crKey (consts : List Constituency) (cands : List Candidate) (parties : List Party)
    (r : Row) : Except String (Nat × Int × String) :=
  (crKeyRes consts cands parties r).map (fun x => (x.c.id, x.year, x.etype))

/-- The scalar vote fields of a constituency-result row, in source order. -/
structure CRVals where
  total : Int
  valid : Int
  rejected : Int
  turnout : PyFloat
  margin_votes : Option Int
  margin_pct : Option PyFloat
  is_official : Bool
deriving DecidableEq, Repr

/-- Compute the scalar vote fields. -/
def crVals (r : Row) : Except String CRVals := do
  let total ← intFieldS r "total_votes"
  let valid ← intFieldS r "valid_votes"
  let rejected ← intFieldS r "rejected_votes"
  let turnout ← floatFieldS r "turnout_percentage"
  let mv ← optIntFieldS r "margin_votes"
  let mp ← optFloatFieldS r "margin_percentage"
  pure ⟨total, valid, rejected, turnout, mv, mp, boolFieldD r "is_official" false⟩

/-- Constituency result update path: the update dict (including
`declared_at`), the post-merge vote-sum check, then `setattr` of all
fields. -/
def crUpd (consts : List Constituency) (cands : List Candidate) (parties : List Party)
    (now : Nat) (r : Row) : Except String (ConstituencyResult → ConstituencyResult) := do
  let refs ← crKeyRes consts cands parties r
  let v ← crVals r
  let declared := if cellEqTrue (rowGet r "is_official") then some now else none
  if v.valid + v.rejected ≠ v.total then .error (voteMismatchMsg v.valid v.rejected v.total)
  else
    pure (fun e => { e with
      total_votes := v.total
      valid_votes := v.valid
      rejected_votes := v.rejected
      turnout_percentage := v.turnout
      winning_candidate_id := refs.wc.map Candidate.id
      winning_party_id := refs.wp.map Party.id
      margin_votes := v.margin_votes
      margin_percentage := v.margin_pct
      is_official := v.is_official
      declared_at := declared })

/-- Constituency result create path.  `ConstituencyResultCreate`'s pydantic
`total_votes` field validator runs before `valid_votes`/`rejected_votes` are
validated, so it compares the total against their defaults (0) and rejects
every row whose total is nonzero; the remaining constraints are the `ge`/`le`
bounds.  Only then would the explicit vote-sum check and the crud re-check
run. -/
def crMk (consts : List Constituency) (cands : List Candidate) (parties : List Party)
    (k : Nat × Int × String) (r : Row) (nid : Nat) (es : List ConstituencyResult) :
    Except String ConstituencyResult := do
  let refs ← crKeyRes consts cands parties r
  let v ← crVals r
  if ¬ (decide (0 ≤ v.total) && decide ((0 : Int) + 0 == v.total) && decide (0 ≤ v.valid) &&
        decide (0 ≤ v.rejected) && pfInRange v.turnout 0 100 && optNonNegI v.margin_votes &&
        optPfOk v.margin_pct 0 100) then
    .error (pydMsg "ConstituencyResultCreate")
  else if v.valid + v.rejected ≠ v.total then .error (voteMismatchMsg v.valid v.rejected v.total)
  else if es.any (fun e => e.constituency_id == k.1 && e.election_year == k.2.1 &&
      e.election_type == k.2.2) then
    .error (pyErrStr (.httpError 400 "Result already exists for this constituency and election year"))
  else
    .ok ⟨nid, k.1, k.2.1, k.2.2, v.total, v.valid, v.rejected, v.turnout,
      refs.wc.map Candidate.id, refs.wp.map Party.id, v.margin_votes, v.margin_pct,
      v.is_official, none⟩

/-- Per-row operations of the constituency result importer. -/
def crOps (now : Nat) (consts : List Constituency) (cands : List Candidate)
    (parties : List Party) : UOps (Nat × Int × String) ConstituencyResult :=
  ⟨crKey consts cands parties, crUpd consts cands parties now, crMk consts cands parties,
   fun e => (e.constituency_id, e.election_year, e.election_type)⟩

/-- Model of `import_constituency_result_data(db, df, user_id)`. -/
def import_constituency_result_data (now : Nat) (db : DB) (df : Table) (user_id : Nat) :
    DB × ImportReport :=
  let ((rs, nid), rep) :=
    runImport (crOps now db.constituencies db.candidates db.parties)
      db.constituencyResults db.nextId df.rows
  ({ db with constituencyResults := rs, nextId := nid }, rep)

/-!
Schema validators (`validate_*_csv`).  The required-column sets are Python
set literals whose iteration order is unspecified; the embedding uses the
order in which the source writes them, which is also the only order any
theorem below evaluates (single-element instances).  Validators whose every
raise point sits under a `try/except ValueError` (or behind an
`pd.isna(row.get(..))` short-circuit guard) are pure functions; the division
and constituency-result validators have genuine uncaught raise points and are
`Except`-valued.
-/

/-- Python `required_columns - set(df.columns)`, in the literal's written
order. -/
def missingColumns (cols : List String) (req : List String) : List String :=
  req.filter (fun c => ¬ cols.contains c)

/-- The single structural error for missing required columns, tagged row 0
with the comma-joined column names. -/
def missingColErr (missing : List String) : ErrData :=
  ⟨some 0, some (String.intercalate "," missing),
   "Missing required columns: " ++ String.intercalate ", " missing⟩

/-- Model of Python `str.title()`: upper-case the first letter of each
alphabetic run, lower-case the rest. -/
def pyTitleGo : Bool → List Char → List Char
  | _, [] => []
  | prevAlpha, c :: cs =>
    let c' := if c.isAlpha then (if prevAlpha then c.toLower else c.toUpper) else c
    c' :: pyTitleGo c.isAlpha cs

/-- Python `s.title()`. -/
def pyTitle (s : String) : String := String.mk (pyTitleGo false s.toList)

/-- Python `s.replace('_', ' ')`. -/
def underscoreToSpace (s : String) : String :=
  String.mk (s.toList.map (fun c => if c == Char.ofNat 95 then Char.ofNat 32 else c))

/-- The generic required-field message
`f"{col.replace('_', ' ').title()} is required"`. -/
def reqMsg (c : String) : String := pyTitle (underscoreToSpace c) ++ " is required"

/-- One required-field emptiness check:
`pd.isna(row.get(col)) or str(row[col]).strip() == ""` (Python `or`
short-circuits, so `row[col]` is only read when the cell exists). -/
def requiredCellErr (rn : Nat) (r : Row) (c : String) (msg : String) : List ErrData :=
  match rowGet r c with
  | none => [mkColErr rn c msg]
  | some cell =>
    if pyIsNa cell then [mkColErr rn c msg]
    else if pyStrip (pyStrCell cell) == "" then [mkColErr rn c msg]
    else []

/-- Per-row loop of a pure validator: each row contributes its error list,
rows are numbered `idx + 2`. -/
def flatMapIdx (f : Nat → Row → List ErrData) : Nat → List Row → List ErrData
  | _, [] => []
  | idx, r :: rs => f (idx + 2) r ++ flatMapIdx f (idx + 1) rs

/-- Per-row loop of an `Except`-valued validator: an uncaught exception in
one row aborts the whole validation pass. -/
def forRowsE (f : Nat → Row → Except PyErr (List ErrData)) :
    Nat → List Row → Except PyErr (List ErrData)
  | _, [] => .ok []
  | idx, r :: rs => do
    let es ← f (idx + 2) r
    let rest ← forRowsE f (idx + 1) rs
    pure (es ++ rest)

/-- Numeric-typed optional range check shared by the validators: when the
column exists and the cell is non-NaN, convert with `int` under
`except ValueError` and range-check the value. -/
def intRangeCheck (cols : List String) (rn : Nat) (r : Row) (c : String)
    (lo hi : Int) (rangeMsg badMsg : String) : List ErrData :=
  if cols.contains c then
    match rowGet r c with
    | some cell =>
      if pyIsNa cell then []
      else
        match pyInt cell with
        | .ok v => if v < lo ∨ hi < v then [mkColErr rn c rangeMsg] else []
        | .error _ => [mkColErr rn c badMsg]
    | none => []
  else []

/-- Optional float range check (`except ValueError` around `float`). -/
def floatRangeCheck (cols : List String) (rn : Nat) (r : Row) (c : String)
    (lo hi : Rat) (rangeMsg badMsg : String) : List ErrData :=
  if cols.contains c then
    match rowGet r c with
    | some cell =>
      if pyIsNa cell then []
      else
        match pyFloat cell with
        | .ok x => if pfLt x lo || pfGt x hi then [mkColErr rn c rangeMsg] else []
        | .error _ => [mkColErr rn c badMsg]
    | none => []
  else []

/-- Division validator per-row checks (`validate_division_csv`, lines 26-52).
The duplicate-code check indexes `df["code"].value_counts()` — which drops
NaN — with the row's own code cell, so a missing/NaN code raises an uncaught
`KeyError` after the required-field errors were collected. -/
def validateDivisionRow (df : Table) (rn : Nat) (r : Row) : Except PyErr (List ErrData) := do
  let e1 := requiredCellErr rn r "name" "Division name is required"
  let e2 := requiredCellErr rn r "code" "Division code is required"
  let e3 ←
    if df.cols.contains "code" then do
      let c ← getE r "code"
      if pyIsNa c then Except.error (PyErr.keyError (pyStrCell c))
      else
        let cnt := (df.rows.filter (fun x => rowGet x "code" == some c)).length
        if cnt = 0 then Except.error (PyErr.keyError (pyStrCell c))
        else pure (if 1 < cnt then
          [mkColErr rn "code" ("Duplicate division code: " ++ pyStrCell c)] else [])
    else pure []
  pure (e1 ++ e2 ++ e3)

/-- Model of `validate_division_csv(df)`. -/
def validate_division_csv (df : Table) : Except PyErr (List ErrData) :=
  let missing := missingColumns df.cols ["name", "code"]
  if ¬ missing.isEmpty then .ok [missingColErr missing]
  else forRowsE (validateDivisionRow df) 0 df.rows

/-- District validator per-row checks (`validate_district_csv`). -/
def validateDistrictRow (rn : Nat) (r : Row) : List ErrData :=
  requiredCellErr rn r "name" "District name is required" ++
  requiredCellErr rn r "code" "District code is required" ++
  requiredCellErr rn r "division_name" "Division name is required"

/-- Model of `validate_district_csv(df)`. -/
def validate_district_csv (df : Table) : List ErrData :=
  let missing := missingColumns df.cols ["name", "code", "division_name"]
  if ¬ missing.isEmpty then [missingColErr missing]
  else flatMapIdx validateDistrictRow 0 df.rows

/-- Constituency validator per-row checks (`validate_constituency_csv`). -/
def validateConstituencyRow (rn : Nat) (r : Row) : List ErrData :=
  requiredCellErr rn r "name" "Constituency name is required" ++
  requiredCellErr rn r "number" "Constituency number is required" ++
  requiredCellErr rn r "district_name" "District name is required" ++
  requiredCellErr rn r "division_name" "Division name is required"

/-- Model of `validate_constituency_csv(df)`. -/
def validate_constituency_csv (df : Table) : List ErrData :=
  let missing := missingColumns df.cols ["name", "number", "district_name", "division_name"]
  if ¬ missing.isEmpty then [missingColErr missing]
  else flatMapIdx validateConstituencyRow 0 df.rows

/-- Required columns of the candidate validator. -/
def candidateReq : List String :=
  ["full_name", "party_name", "constituency_number", "election_year", "election_type"]

/-- Candidate validator per-row checks (`validate_candidate_csv`, lines
361-406): required-field loop, election-year range, optional age range. -/
def validateCandidateRow (cols : List String) (rn : Nat) (r : Row) : List ErrData :=
  candidateReq.flatMap (fun c => requiredCellErr rn r c (reqMsg c)) ++
  intRangeCheck cols rn r "election_year" 1970 2100
    "Election year must be between 1970 and 2100" "Election year must be a valid number" ++
  intRangeCheck cols rn r "age" 21 150
    "Age must be between 21 and 150" "Age must be a valid number"

/-- Model of `validate_candidate_csv(df)`; every raise point is guarded, so
the validator is a total function. -/
def validate_candidate_csv (df : Table) : List ErrData :=
  let missing := missingColumns df.cols candidateReq
  if ¬ missing.isEmpty then [missingColErr missing]
  else flatMapIdx (validateCandidateRow df.cols) 0 df.rows

/-- Party validator per-row check (`validate_party_csv`). -/
def validatePartyRow (rn : Nat) (r : Row) : List ErrData :=
  requiredCellErr rn r "name" "Party name is required"

/-- Model of `validate_party_csv(df)`. -/
def validate_party_csv (df : Table) : List ErrData :=
  let missing := missingColumns df.cols ["name"]
  if ¬ missing.isEmpty then [missingColErr missing]
  else flatMapIdx validatePartyRow 0 df.rows

/-- Required columns of the polling center validator. -/
def pollingCenterReq : List String := ["code", "name", "constituency_number"]

/-- Polling center validator per-row checks. -/
def validatePollingCenterRow (cols : List String) (rn : Nat) (r : Row) : List ErrData :=
  pollingCenterReq.flatMap (fun c => requiredCellErr rn r c (reqMsg c)) ++
  floatRangeCheck cols rn r "latitude" (-90) 90
    "Latitude must be between -90 and 90" "Latitude must be a valid number" ++
  floatRangeCheck cols rn r "longitude" (-180) 180
    "Longitude must be between -180 and 180" "Longitude must be a valid number"

/-- Model of `validate_polling_center_csv(df)`. -/
def validate_polling_center_csv (df : Table) : List ErrData :=
  let missing := missingColumns df.cols pollingCenterReq
  if ¬ missing.isEmpty then [missingColErr missing]
  else flatMapIdx (validatePollingCenterRow df.cols) 0 df.rows

/-- Required columns of the polling result validator. -/
def pollingResultReq : List String :=
  ["polling_center_code", "candidate_name", "constituency_number", "election_year",
   "votes_received"]

/-- Polling result validator per-row checks. -/
def validatePollingResultRow (cols : List String) (rn : Nat) (r : Row) : List ErrData :=
  pollingResultReq.flatMap (fun c => requiredCellErr rn r c (reqMsg c)) ++
  (if cols.contains "votes_received" then
    match rowGet r "votes_received" with
    | some cell =>
      if pyIsNa cell then []
      else
        match pyInt cell with
        | .ok v => if v < 0 then [mkColErr rn "votes_received" "Votes must be non-negative"] else []
        | .error _ => [mkColErr rn "votes_received" "Votes must be a valid integer"]
    | none => []
  else [])

/-- Model of `validate_polling_result_csv(df)`. -/
def validate_polling_result_csv (df : Table) : List ErrData :=
  let missing := missingColumns df.cols pollingResultReq
  if ¬ missing.isEmpty then [missingColErr missing]
  else flatMapIdx (validatePollingResultRow df.cols) 0 df.rows

/-- Required columns of the voter demographics validator. -/
def voterDemoReq : List String := ["constituency_number", "election_year", "total_voters"]

/-- The numeric fields checked by the voter demographics validator. -/
def voterDemoNumeric : List String :=
  ["total_voters", "male_voters", "female_voters", "other_voters"]

/-- Voter demographics validator per-row checks. -/
def validateVoterDemoRow (cols : List String) (rn : Nat) (r : Row) : List ErrData :=
  voterDemoReq.flatMap (fun c => requiredCellErr rn r c (reqMsg c)) ++
  voterDemoNumeric.flatMap (fun c =>
    if cols.contains c then
      match rowGet r c with
      | some cell =>
        if pyIsNa cell then []
        else
          match pyInt cell with
          | .ok v =>
            if v < 0 then
              [mkColErr rn c (pyTitle (underscoreToSpace c) ++ " must be non-negative")]
            else []
          | .error _ =>
            [mkColErr rn c (pyTitle (underscoreToSpace c) ++ " must be a valid integer")]
      | none => []
    else [])

/-- Model of `validate_voter_demographics_csv(df)`. -/
def validate_voter_demographics_csv (df : Table) : List ErrData :=
  let missing := missingColumns df.cols voterDemoReq
  if ¬ missing.isEmpty then [missingColErr missing]
  else flatMapIdx (validateVoterDemoRow df.cols) 0 df.rows

/-- Required columns of the constituency result validator. -/
def crReq : List String :=
  ["constituency_number", "election_year", "total_votes", "valid_votes", "rejected_votes",
   "turnout_percentage"]

/-- The joint column tag of the vote-sum checks. -/
def voteCols : String := "total_votes,valid_votes,rejected_votes"

/-- The vote-arithmetic block of the constituency result validator: direct
`row[..]` accesses (an absent cell raises an uncaught `KeyError`; real pandas
rows always carry every column), `int` conversions under a shared
`except ValueError`, then the cross-field sum check.  A `ValueError` skips
the remaining conversions of the same row, exactly as the `try` block does. -/
def crVoteCheck (rn : Nat) (r : Row) : Except PyErr (List ErrData) :=
  let bad := [mkColErr rn voteCols "Vote counts must be valid integers"]
  match rowGet r "total_votes" with
  | none => .error (.keyError "total_votes")
  | some ct =>
    match pyInt ct with
    | .error _ => .ok bad
    | .ok t =>
      match rowGet r "valid_votes" with
      | none => .error (.keyError "valid_votes")
      | some cv =>
        match pyInt cv with
        | .error _ => .ok bad
        | .ok v =>
          match rowGet r "rejected_votes" with
          | none => .error (.keyError "rejected_votes")
          | some cr =>
            match pyInt cr with
            | .error _ => .ok bad
            | .ok rj =>
              .ok (if v + rj ≠ t then [mkColErr rn voteCols (voteMismatchMsg v rj t)] else [])

/-- Constituency result validator per-row checks (lines 1057-1103). -/
def validateCRRow (cols : List String) (rn : Nat) (r : Row) : Except PyErr (List ErrData) := do
  let e1 := crReq.flatMap (fun c => requiredCellErr rn r c (reqMsg c))
  let e2 ←
    if ["total_votes", "valid_votes", "rejected_votes"].all (fun c => cols.contains c) then
      crVoteCheck rn r
    else pure []
  let e3 := floatRangeCheck cols rn r "turnout_percentage" 0 100
    "Turnout percentage must be between 0 and 100" "Turnout percentage must be a valid number"
  pure (e1 ++ e2 ++ e3)

/-- Model of `validate_constituency_result_csv(df)`. -/
def validate_constituency_result_csv (df : Table) : Except PyErr (List ErrData) :=
  let missing := missingColumns df.cols crReq
  if ¬ missing.isEmpty then .ok [missingColErr missing]
  else forRowsE (validateCRRow df.cols) 0 df.rows

/-!
The `bulk_import` endpoint (`app/api/v1/admin.py`, lines 350-471).
-/

/-- The entity kinds of the pipeline. -/
inductive EntityKind
  | division
  | district
  | constituency
  | party
  | candidate
  | polling_center
  | polling_result
  | voter_demographics
  | constituency_result
deriving DecidableEq, Repr

/-- Validator dispatch; pure validators are wrapped as never-raising. -/
def validatorK : EntityKind → Table → Except PyErr (List ErrData)
  | .division => validate_division_csv
  | .district => fun df => .ok (validate_district_csv df)
  | .constituency => fun df => .ok (validate_constituency_csv df)
  | .party => fun df => .ok (validate_party_csv df)
  | .candidate => fun df => .ok (validate_candidate_csv df)
  | .polling_center => fun df => .ok (validate_polling_center_csv df)
  | .polling_result => fun df => .ok (validate_polling_result_csv df)
  | .voter_demographics => fun df => .ok (validate_voter_demographics_csv df)
  | .constituency_result => validate_constituency_result_csv

/-- Importer dispatch (`now` is the call's clock, `user_id` the operator). -/
def importRun (k : EntityKind) (now : Nat) (db : DB) (df : Table) (user_id : Nat) :
    DB × ImportReport :=
  match k with
  | .division => import_division_data db df
  | .district => import_district_data db df
  | .constituency => import_constituency_data db df
  | .party => import_party_data db df user_id
  | .candidate => import_candidate_data db df user_id
  | .polling_center => import_polling_center_data db df user_id
  | .polling_result => import_polling_result_data db df user_id
  | .voter_demographics => import_voter_demographics_data now db df user_id
  | .constituency_result => import_constituency_result_data now db df user_id

/-- The `import_handlers` dict of the endpoint: only six entity kinds are
dispatchable; `division`, `district` and `constituency` have no entry. -/
def importHandlers (s : String) : Option EntityKind :=
  if s == "candidate" then some .candidate
  else if s == "party" then some .party
  else if s == "polling_center" then some .polling_center
  else if s == "polling_result" then some .polling_result
  else if s == "voter_demographics" then some .voter_demographics
  else if s == "constituency_result" then some .constituency_result
  else none

/-- The strings the endpoint accepts. -/
def supportedImportTypes : List String :=
  ["candidate", "party", "polling_center", "polling_result", "voter_demographics",
   "constituency_result"]

/-- API-visible state: the store plus the append-only import log table. -/
structure ApiState where
  db : DB
  logs : List ImportLogRec
deriving DecidableEq, Repr

/-- Detail payload of an HTTP error response. -/
inductive RespDetail
  | text (s : String)
  | errs (es : List ErrData)
deriving DecidableEq, Repr

/-- An HTTP error outcome of the endpoint. -/
structure HttpErr where
  status : Nat
  detail : RespDetail
deriving DecidableEq, Repr

/-- Outcome of `pd.read_csv` on the uploaded bytes. -/
inductive ParseOutcome
  | emptyData
  | parserError
  | ok (df : Table)
deriving DecidableEq, Repr

/-- Successful response body of the endpoint: the dry-run preview report
(`successful_rows` is `len(df) - len(errors)`, a possibly negative Python
int) or the importer's completion report. -/
inductive BulkResp
  | dry (total : Nat) (successful : Int) (failed : Nat) (errors : List ErrData)
      (preview : List Row)
  | completed (rep : ImportReport)
deriving DecidableEq, Repr

/-- Python `repr` of a string (naive single-quoted form; no message in this
development contains a quote). -/
def pyReprStr (s : String) : String := pyQuote ++ s ++ pyQuote

/-- Python `repr` of one error dict, keys in insertion order. -/
def pyReprErrData (e : ErrData) : String :=
  "\x7b" ++
  (match e.row? with
   | some n => pyReprStr "row" ++ ": " ++ toString n ++ ", "
   | none => "") ++
  (match e.column? with
   | some c => pyReprStr "column" ++ ": " ++ pyReprStr c ++ ", "
   | none => "") ++
  pyReprStr "error" ++ ": " ++ pyReprStr e.error ++ "\x7d"

/-- Python `repr` of the error list. -/
def pyReprErrList (es : List ErrData) : String :=
  "[" ++ String.intercalate ", " (es.map pyReprErrData) ++ "]"

/-- Python `repr` of the `{"errors": errors}` detail dict. -/
def pyReprErrsDetail (es : List ErrData) : String :=
  "\x7b" ++ pyReprStr "errors" ++ ": " ++ pyReprErrList es ++ "\x7d"

/-- The zero-count audit record the outermost `except Exception` handler
writes. -/
def catchAllLog (import_type file_name : String) (user_id : Nat) (msg : String) :
    ImportLogRec :=
  ⟨import_type, file_name, 0, 0, 0, [mkPlainErr msg], user_id, "failed"⟩

/-- Model of the `bulk_import` endpoint, from the dispatch lookup onward.
The uploaded bytes are abstracted to the `pd.read_csv` outcome `parsed`.

The source wraps everything after parsing in `try .. except Exception`.
`fastapi.HTTPException` subclasses `Exception`, so the 400 response the
schema-error branch (lines 404-422) deliberately raises is caught by the
function's own catch-all (lines 453-471): a second, zero-count audit record
is written and a 500 with a stringified message is returned instead. -/
def bulk_import (import_type file_name : String) (dry_run : Bool) (user_id now : Nat)
    (parsed : ParseOutcome) (st : ApiState) : ApiState × Except HttpErr BulkResp :=
  match importHandlers import_type with
  | none =>
    (st, .error ⟨400, .text ("Unsupported import type: " ++ import_type)⟩)
  | some kind =>
    if ¬ pyEndsWith file_name ".csv" then
      (st, .error ⟨400, .text "Only CSV files are allowed"⟩)
    else
      match parsed with
      | .emptyData => (st, .error ⟨400, .text "CSV file is empty"⟩)
      | .parserError => (st, .error ⟨400, .text "Invalid CSV format"⟩)
      | .ok df =>
        match validatorK kind df with
        | .error e =>
          let msg := "Error processing file: " ++ pyErrStr e
          ({ st with logs := st.logs ++ [catchAllLog import_type file_name user_id (pyErrStr e)] },
           .error ⟨500, .text msg⟩)
        | .ok errors =>
          if dry_run then
            (st, .ok (.dry df.rows.length ((df.rows.length : Int) - errors.length)
              errors.length errors (df.rows.take 10)))
          else if ¬ errors.isEmpty then
            let log1 : ImportLogRec :=
              ⟨import_type, file_name, df.rows.length, 0, df.rows.length, errors, user_id,
               "failed"⟩
            let excStr := pyErrStr (.httpError 400 (pyReprErrsDetail errors))
            ({ st with logs := st.logs ++
                [log1, catchAllLog import_type file_name user_id excStr] },
             .error ⟨500, .text ("Error processing file: " ++ excStr)⟩)
          else
            let (db', rep) := importRun kind now st.db df user_id
            let log : ImportLogRec :=
              ⟨import_type, file_name, rep.total_rows, rep.successful_rows, rep.failed_rows,
               rep.errors, user_id, "completed"⟩
            (⟨db', st.logs ++ [log]⟩, .ok (.completed rep))

/-!
Analysis vocabulary for the idempotence of the upsert loop: positions are
tracked through the key list, and the effect of a row list on one position is
the chain of its update functions.
-/

/-- Whether an `Except` computation succeeded. -/
def exceptOk {e a : Type} : Except e a → Bool
  | .ok _ => true
  | .error _ => false

/-- First index of a key in a key list. -/
def findL {K : Type} [BEq K] (k : K) : List K → Option Nat
  | [] => none
  | k' :: ks => if k' == k then some 0 else (findL k ks).map (· + 1)

/-- Whether a row's key resolves to position `j` of the key list `kl`. -/
def touches {K E : Type} [BEq K] (ops : UOps K E) (kl : List K) (j : Nat) (r : Row) : Bool :=
  match ops.key r with
  | .ok k => findL k kl == some j
  | .error _ => false

/-- Apply, in order, the update functions of the rows that touch position
`j`. -/
def chainApp {K E : Type} [BEq K] (ops : UOps K E) (kl : List K) (j : Nat)
    (rows : List Row) (x : E) : E :=
  rows.foldl (fun x r =>
    if touches ops kl j r then
      match ops.upd r with
      | .ok u => u x
      | .error _ => x
    else x) x

/-- The laws an importer's row operations satisfy when its update path
overwrites a fixed field set (never the natural key) with row-determined
values and its create path writes the same values: these hold for the party
and candidate importers and drive the re-import idempotence argument. -/
structure ULaws {K E : Type} [BEq K] (ops : UOps K E) : Prop where
  keyMk : ∀ k r n l e, ops.key r = .ok k → ops.mkE k r n l = .ok e → ops.keyOf e = k
  keyUpd : ∀ r u e, ops.upd r = .ok u → ops.keyOf (u e) = ops.keyOf e
  updUpd : ∀ r r' u u' e, ops.upd r = .ok u → ops.upd r' = .ok u' → u (u' e) = u e
  updMk : ∀ k r n l u e, ops.key r = .ok k → ops.upd r = .ok u → ops.mkE k r n l = .ok e →
    u e = e
  mkUpd : ∀ k r n l e, ops.mkE k r n l = .ok e → ∃ u, ops.upd r = .ok u

/-!
Spec-side renderings and concrete scenarios referenced by the theorems.
-/

/-- Spec rendering of the division validator's per-row output: the complete
error list of one row — required-name, required-code, then the duplicate-code
flag (raised on every occurrence of a repeated code).  Written from the
spec's wording that the validator returns the complete error list and that
one row's errors never halt the checks on subsequent rows; compared below
with the `Except`-valued translation `validate_division_csv`. -/
def divisionRowSpec (df : Table) (rn : Nat) (r : Row) : List ErrData :=
  requiredCellErr rn r "name" "Division name is required" ++
  requiredCellErr rn r "code" "Division code is required" ++
  (match rowGet r "code" with
   | some c =>
     if pyIsNa c then []
     else if 1 < (df.rows.filter (fun x => rowGet x "code" == some c)).length then
       [mkColErr rn "code" ("Duplicate division code: " ++ pyStrCell c)]
     else []
   | none => [])

/-- Completely empty store. -/
def emptyDB : DB := ⟨1, [], [], [], [], [], [], [], [], []⟩

/-- Initial API state over a given store, with no logs yet. -/
def apiState0 (db : DB) : ApiState := ⟨db, []⟩

/-- A party table whose header lacks the required `name` column. -/
def dfNoName : Table := ⟨["acronym"], [[("acronym", Cell.s "AL")]]⟩

/-- A one-row valid party table. -/
def dfParty1 : Table :=
  ⟨["name", "acronym"], [[("name", Cell.s "Awami League"), ("acronym", Cell.s "AL")]]⟩

/-- A division table with one row whose `code` cell is missing (NaN). -/
def dfNaCode : Table :=
  ⟨["name", "code"], [[("name", Cell.s "Dhaka"), ("code", Cell.na)]]⟩

/-- A division table with two rows sharing code `"D1"`. -/
def dfDupCode : Table :=
  ⟨["name", "code"],
   [[("name", Cell.s "Dhaka"), ("code", Cell.s "D1")],
    [("name", Cell.s "Khulna"), ("code", Cell.s "D1")]]⟩

/-- Store for the constituency-result scenario: one constituency (number
`"1"`) and one stored result for it (year 2024, type `"National"`). -/
def dbCR : DB :=
  { emptyDB with
    constituencies := [⟨10, "Dhaka-1", "1", 5, none, none, true⟩]
    constituencyResults :=
      [⟨20, 10, 2024, "National", 90, 50, 40, PyFloat.val 55, none, none, none, none,
        false, none⟩] }

/-- A constituency-result row with `total_votes=100`, `valid_votes=60` and
the given `rejected_votes`. -/
def crScenarioRow (rejected : Int) : Row :=
  [("constituency_number", Cell.s "1"), ("election_year", Cell.i 2024),
   ("total_votes", Cell.i 100), ("valid_votes", Cell.i 60),
   ("rejected_votes", Cell.i rejected), ("turnout_percentage", Cell.s "55.5")]

/-- The one-row constituency-result table of the scenario. -/
def dfCR (rejected : Int) : Table := ⟨crReq, [crScenarioRow rejected]⟩

/-- Store for the voter-demographics scenario: one constituency and one
stored demographics record for it (year 2024). -/
def dbVD : DB :=
  { emptyDB with
    constituencies := [⟨10, "Dhaka-1", "1", 5, none, none, true⟩]
    voterDemographics := [⟨30, 10, 2024, 900, 400, 400, 50, 1, 2, 3, 4, 5, 6,
      some "census", some 99⟩] }

/-- A voter-demographics row with `total_voters=1000`, `male_voters=600` and
the given `female_voters`. -/
def vdScenarioRow (female : Int) : Row :=
  [("constituency_number", Cell.s "1"), ("election_year", Cell.i 2024),
   ("total_voters", Cell.i 1000), ("male_voters", Cell.i 600),
   ("female_voters", Cell.i female)]

/-- The one-row voter-demographics table of the scenario. -/
def dfVD (female : Int) : Table :=
  ⟨["constituency_number", "election_year", "total_voters", "male_voters", "female_voters"],
   [vdScenarioRow female]⟩

/-- Store for the boolean-column scenarios: a geography chain and one
existing party and polling center. -/
def dbBool : DB :=
  { emptyDB with
    nextId := 6
    divisions := [⟨1, "Dhaka", "D1", none, none, none⟩]
    districts := [⟨2, "Dhaka District", "DD", none, 1, none, none⟩]
    constituencies := [⟨3, "Dhaka-1", "1", 2, none, none, true⟩]
    parties := [⟨4, "Awami League", some "AL", none, none, none, false⟩]
    pollingCenters := [⟨5, "PC-001", "Old Center", 3, none, none, none, none, false⟩] }

/-- Party table whose `is_registered` cell is the string `s`; the name
matches the stored party, so the update path runs. -/
def dfPartyFlag (s : String) : Table :=
  ⟨["name", "is_registered"],
   [[("name", Cell.s "Awami League"), ("is_registered", Cell.s s)]]⟩

/-- Party table with a previously-unseen name, so the create path runs. -/
def dfPartyFlagNew (s : String) : Table :=
  ⟨["name", "is_registered"],
   [[("name", Cell.s "Jatiya Party"), ("is_registered", Cell.s s)]]⟩

/-- Polling-center table updating center `PC-001` with `is_active` cell `s`. -/
def dfCenterFlag (s : String) : Table :=
  ⟨["code", "name", "constituency_number", "is_active"],
   [[("code", Cell.s "PC-001"), ("name", Cell.s "New Center"),
     ("constituency_number", Cell.s "1"), ("is_active", Cell.s s)]]⟩

/-- Polling-center table creating center `PC-002` with `is_active` cell `s`. -/
def dfCenterFlagNew (s : String) : Table :=
  ⟨["code", "name", "constituency_number", "is_active"],
   [[("code", Cell.s "PC-002"), ("name", Cell.s "New Center"),
     ("constituency_number", Cell.s "1"), ("is_active", Cell.s s)]]⟩

/-- Constituency table creating number `"9"` with `is_active` cell `s`. -/
def dfConstFlagNew (s : String) : Table :=
  ⟨["division_name", "district_name", "number", "name", "is_active"],
   [[("division_name", Cell.s "Dhaka"), ("district_name", Cell.s "Dhaka District"),
     ("number", Cell.s "9"), ("name", Cell.s "Dhaka-9"), ("is_active", Cell.s s)]]⟩

/-- Store for the idempotence witness: a party and a constituency for the
candidate table to reference. -/
def dbIdem : DB :=
  { emptyDB with
    constituencies := [⟨3, "Dhaka-1", "1", 2, none, none, true⟩]
    parties := [⟨4, "Awami League", some "AL", none, none, none, true⟩] }

/-- A two-row valid party table (update of `Awami League`, create of
`Jatiya Party`). -/
def dfPartyIdem : Table :=
  ⟨["name", "acronym"],
   [[("name", Cell.s "Awami League"), ("acronym", Cell.s "AL")],
    [("name", Cell.s "Jatiya Party"), ("acronym", Cell.s "JP")]]⟩

/-- Placeholder party used as a list-indexing default in proofs. -/
def dummyParty : Party := ⟨0, "", none, none, none, none, true⟩

/-- Placeholder candidate used as a list-indexing default in proofs. -/
def dummyCandidate : Candidate :=
  ⟨0, "", none, none, none, none, 0, 0, 0, "", none, none, true⟩

/-- A one-row valid candidate table. -/
def dfCandIdem : Table :=
  ⟨["full_name", "party_name", "constituency_number", "election_year", "election_type"],
   [[("full_name", Cell.s "John Doe"), ("party_name", Cell.s "Awami League"),
     ("constituency_number", Cell.s "1"), ("election_year", Cell.i 2024),
     ("election_type", Cell.s "National")]]⟩

/-!
Counting invariants of the row loop: every processed row increments exactly
one of the two counters, and contributes exactly its failure's error entry.
-/

theorem urun_counts {K E : Type} [BEq K] (ops : UOps K E) :
    ∀ (rows : List Row) (es : List E) (nid idx : Nat),
      (urun ops es nid idx rows).succ + (urun ops es nid idx rows).fail = rows.length ∧
      (urun ops es nid idx rows).errs.length = (urun ops es nid idx rows).fail := by
  intro rows
  induction rows with
  | nil => intro es nid idx; simp [urun]
  | cons r rs ih =>
    intro es nid idx
    rcases h : ustep ops es nid r with ⟨⟨es', nid'⟩, o⟩
    cases o with
    | none =>
      have h2 := ih es' nid' (idx + 1)
      simp [urun, h]
      omega
    | some m =>
      have h2 := ih es' nid' (idx + 1)
      simp [urun, h, mkRowErr]
      omega

theorem runImport_report {K E : Type} [BEq K] (ops : UOps K E) (es : List E) (nid : Nat)
    (rows : List Row) :
    (runImport ops es nid rows).2.total_rows =
      (runImport ops es nid rows).2.successful_rows +
        (runImport ops es nid rows).2.failed_rows ∧
    (runImport ops es nid rows).2.total_rows = rows.length ∧
    (runImport ops es nid rows).2.errors.length = (runImport ops es nid rows).2.failed_rows := by
  have h := urun_counts ops rows es nid 0
  simp [runImport]
  omega

/-- C2: for every entity kind and every table, the report of the
Resolver/Importer satisfies `total_rows = successful_rows + failed_rows`
(each processed row increments exactly one of the two counters), with
`total_rows` the number of data rows of the table. -/
theorem import_report_total_eq (k : EntityKind) (now : Nat) (db : DB) (df : Table)
    (user_id : Nat) :
    (importRun k now db df user_id).2.total_rows =
      (importRun k now db df user_id).2.successful_rows +
        (importRun k now db df user_id).2.failed_rows ∧
    (importRun k now db df user_id).2.total_rows = df.rows.length := by
  cases k <;>
    exact ⟨(runImport_report _ _ _ _).1, (runImport_report _ _ _ _).2.1⟩

/-- C1 (evidence of the code defect): a non-dry-run party import whose schema
validation fails.  The endpoint writes the intended full-failure audit record
(`successful_rows=0`, `failed_rows=total_rows`, status `"failed"`) and raises
the 400 carrying the error list — but its own `except Exception` catches that
`HTTPException`, so a second, zero-count audit record is written and the call
surfaces a 500 whose detail is a stringified message, not the error list.
The Importer never runs (the store is untouched). -/
theorem bulk_import_schema_error_double_log :
    (bulk_import "party" "data.csv" false 7 0 (.ok dfNoName) (apiState0 emptyDB)).1.logs.length
        = 2 ∧
    (bulk_import "party" "data.csv" false 7 0 (.ok dfNoName) (apiState0 emptyDB)).1.logs.get? 0
        = some ⟨"party", "data.csv", 1, 0, 1,
            [⟨some 0, some "name", "Missing required columns: name"⟩], 7, "failed"⟩ ∧
    ((bulk_import "party" "data.csv" false 7 0 (.ok dfNoName) (apiState0 emptyDB)).1.logs.get? 1).map
        ImportLogRec.total_rows = some 0 ∧
    ((bulk_import "party" "data.csv" false 7 0 (.ok dfNoName) (apiState0 emptyDB)).1.logs.get? 1).map
        ImportLogRec.successful_rows = some 0 ∧
    ((bulk_import "party" "data.csv" false 7 0 (.ok dfNoName) (apiState0 emptyDB)).1.logs.get? 1).map
        ImportLogRec.failed_rows = some 0 ∧
    ((bulk_import "party" "data.csv" false 7 0 (.ok dfNoName) (apiState0 emptyDB)).1.logs.get? 1).map
        ImportLogRec.status = some "failed" ∧
    (∃ msg, (bulk_import "party" "data.csv" false 7 0 (.ok dfNoName) (apiState0 emptyDB)).2
        = .error ⟨500, .text msg⟩) ∧
    (bulk_import "party" "data.csv" false 7 0 (.ok dfNoName) (apiState0 emptyDB)).1.db
        = emptyDB := by
  refine ⟨by decide, by decide, by decide, by decide, by decide, by decide, ⟨_, rfl⟩, by decide⟩

/-- C3 counterexample: a request naming `division` — one of the spec's nine
enumerated entity kinds — is rejected as an unsupported import type by the
exposed bulk-import operation. -/
theorem bulk_import_division_rejected :
    importHandlers "division" = none ∧
    bulk_import "division" "data.csv" false 7 0 (.ok dfNaCode) (apiState0 emptyDB) =
      (apiState0 emptyDB, .error ⟨400, .text "Unsupported import type: division"⟩) :=
  ⟨rfl, rfl⟩

/-- C3 amended: the exposed bulk-import operation dispatches a
validator/importer pair for exactly the six kinds `candidate`, `party`,
`polling_center`, `polling_result`, `voter_demographics` and
`constituency_result`; every other string — in particular `division`,
`district` and `constituency` — is rejected as an unsupported import type,
with no audit record written and no store change. -/
theorem import_handlers_exactly_six :
    (∀ s, (importHandlers s).isSome ↔ s ∈ supportedImportTypes) ∧
    (∀ s file dry uid now parsed st, importHandlers s = none →
      bulk_import s file dry uid now parsed st =
        (st, .error ⟨400, .text ("Unsupported import type: " ++ s)⟩)) := by
  constructor
  · intro s
    unfold importHandlers supportedImportTypes
    split_ifs with h1 h2 h3 h4 h5 h6 <;> simp_all
  · intro s file dry uid now parsed st h
    simp [bulk_import, h]

theorem import_handlers_exactly_six_witness :
    bulk_import "division" "x.csv" true 1 0 .emptyData (apiState0 emptyDB) =
      (apiState0 emptyDB, .error ⟨400, .text ("Unsupported import type: " ++ "division")⟩) :=
  import_handlers_exactly_six.2 "division" "x.csv" true 1 0 .emptyData (apiState0 emptyDB) rfl

/-- C6: the constituency-result row `total_votes=100, valid_votes=60,
rejected_votes=30` is flagged by the validator with one arithmetic-mismatch
error tagged jointly with the three column names, and fails again at import
time (update path): the row counts as failed and the stored result is
unchanged.  With `rejected_votes=40` the validator is clean and the same row
succeeds, updating the stored result. -/
theorem constituency_result_arithmetic_scenario :
    validate_constituency_result_csv (dfCR 30) =
      .ok [⟨some 2, some voteCols,
        "Valid votes (60) + Rejected votes (30) must equal Total votes (100)"⟩] ∧
    validate_constituency_result_csv (dfCR 40) = .ok [] ∧
    import_constituency_result_data 7 dbCR (dfCR 30) 1 =
      (dbCR, ⟨1, 0, 1,
        [mkRowErr 2 "Valid votes (60) + Rejected votes (30) must equal Total votes (100)"]⟩) ∧
    (import_constituency_result_data 7 dbCR (dfCR 40) 1).2 = ⟨1, 1, 0, []⟩ ∧
    (import_constituency_result_data 7 dbCR (dfCR 40) 1).1.constituencyResults =
      [⟨20, 10, 2024, "National", 100, 60, 40, PyFloat.val (mkRat 111 2), none, none, none,
        none, false, none⟩] := by
  refine ⟨by decide, by decide, by decide, by decide, by decide⟩

/-- C7: a voter-demographics row with `total_voters=1000, male_voters=600,
female_voters=500` (gender sum 1100) fails at import time with the
gender-sum-exceeds-total error, counted as a row failure, and in the update
path the existing stored record keeps every field unchanged; reducing
`female_voters` to 300 makes the same row succeed and update the record. -/
theorem voter_demographics_gender_sum_scenario :
    import_voter_demographics_data 7 dbVD (dfVD 500) 1 =
      (dbVD, ⟨1, 0, 1, [mkRowErr 2 "Sum of gender voters (1100) exceeds total voters (1000)"]⟩) ∧
    (import_voter_demographics_data 7 dbVD (dfVD 300) 1).2 = ⟨1, 1, 0, []⟩ ∧
    (import_voter_demographics_data 7 dbVD (dfVD 300) 1).1.voterDemographics =
      [⟨30, 10, 2024, 1000, 600, 300, 0, 0, 0, 0, 0, 0, 0, none, some 7⟩] := by
  refine ⟨by decide, by decide, by decide⟩

/-!
Totality of the dispatched validators, and the dry-run contract.
-/

theorem exceptOk_exists {e a : Type} (x : Except e a) (h : exceptOk x = true) :
    ∃ v, x = .ok v := by
  cases x with
  | ok v => exact ⟨v, rfl⟩
  | error err => simp [exceptOk] at h

theorem forRowsE_isOk (f : Nat → Row → Except PyErr (List ErrData)) :
    ∀ (rows : List Row), (∀ r ∈ rows, ∀ n, exceptOk (f n r) = true) →
      ∀ idx, exceptOk (forRowsE f idx rows) = true := by
  intro rows
  induction rows with
  | nil => intro _ idx; rfl
  | cons r rs ih =>
    intro h idx
    obtain ⟨es, hes⟩ := exceptOk_exists _ (h r (List.mem_cons_self r rs) (idx + 2))
    obtain ⟨rest, hrest⟩ := exceptOk_exists _
      (ih (fun r' hr' n => h r' (List.mem_cons_of_mem r hr') n) (idx + 1))
    simp [forRowsE, hes, hrest, exceptOk]
    rfl

theorem crVoteCheck_isOk (rn : Nat) (r : Row)
    (h1 : (rowGet r "total_votes").isSome) (h2 : (rowGet r "valid_votes").isSome)
    (h3 : (rowGet r "rejected_votes").isSome) :
    exceptOk (crVoteCheck rn r) = true := by
  obtain ⟨ct, hc1⟩ := Option.isSome_iff_exists.mp h1
  obtain ⟨cv, hc2⟩ := Option.isSome_iff_exists.mp h2
  obtain ⟨cr, hc3⟩ := Option.isSome_iff_exists.mp h3
  rcases ht : pyInt ct with t | t
  · simp [crVoteCheck, hc1, ht, exceptOk]
  · rcases hv : pyInt cv with v | v
    · simp [crVoteCheck, hc1, hc2, ht, hv, exceptOk]
    · rcases hj : pyInt cr with rj | rj
      · simp [crVoteCheck, hc1, hc2, hc3, ht, hv, hj, exceptOk]
      · simp [crVoteCheck, hc1, hc2, hc3, ht, hv, hj, exceptOk]

/-- Row/column completeness gives each row a cell for each header column. -/
theorem complete_cell (df : Table) (h : df.Complete) (r : Row) (hr : r ∈ df.rows)
    (c : String) (hc : df.cols.contains c = true) : (rowGet r c).isSome := by
  have h' := h
  unfold Table.Complete Table.completeB at h'
  rw [List.all_eq_true] at h'
  have hrow := h' r hr
  rw [List.all_eq_true] at hrow
  have hcm : c ∈ df.cols := by
    obtain ⟨a, ha, hbeq⟩ := List.contains_iff_exists_mem_beq.mp hc
    rwa [show a = c from (eq_of_beq hbeq).symm] at ha
  have := hrow c hcm
  simpa [rowHas] using this

theorem validateCRRow_isOk (df : Table) (h : df.Complete) (r : Row) (hr : r ∈ df.rows)
    (rn : Nat) : exceptOk (validateCRRow df.cols rn r) = true := by
  by_cases hall : (["total_votes", "valid_votes", "rejected_votes"].all
      (fun c => df.cols.contains c)) = true
  · have p1 : (rowGet r "total_votes").isSome := by
      apply complete_cell df h r hr
      simpa using (List.all_eq_true.mp hall "total_votes" (by simp))
    have p2 : (rowGet r "valid_votes").isSome := by
      apply complete_cell df h r hr
      simpa using (List.all_eq_true.mp hall "valid_votes" (by simp))
    have p3 : (rowGet r "rejected_votes").isSome := by
      apply complete_cell df h r hr
      simpa using (List.all_eq_true.mp hall "rejected_votes" (by simp))
    obtain ⟨es, hes⟩ := exceptOk_exists _ (crVoteCheck_isOk rn r p1 p2 p3)
    unfold validateCRRow
    rw [hall]
    simp [hes, exceptOk]
  · rw [Bool.not_eq_true] at hall
    unfold validateCRRow
    rw [hall]
    rfl

theorem crValidator_total (df : Table) (h : df.Complete) :
    ∃ es, validate_constituency_result_csv df = .ok es := by
  simp only [validate_constituency_result_csv]
  split
  · exact ⟨_, rfl⟩
  · exact exceptOk_exists _
      (forRowsE_isOk _ df.rows (fun r hr n => validateCRRow_isOk df h r hr n) 0)

theorem validatorK_total (s : String) (k : EntityKind) (hk : importHandlers s = some k)
    (df : Table) (hdf : df.Complete) : ∃ es, validatorK k df = .ok es := by
  unfold importHandlers at hk
  split_ifs at hk <;> injection hk with hk' <;> subst hk'
  · exact ⟨_, rfl⟩
  · exact ⟨_, rfl⟩
  · exact ⟨_, rfl⟩
  · exact ⟨_, rfl⟩
  · exact ⟨_, rfl⟩
  · exact crValidator_total df hdf

/-- C4: for every dispatched entity kind and every table, a dry-run
invocation runs only the Schema Validator, performs no store mutation and
writes no audit record (the API state is returned unchanged), and its report
has `total_rows = len(df)`, `successful_rows = total_rows - #errors`,
`failed_rows = #errors`, the validator's error list, and `preview_data` equal
to the first (at most 10) rows. -/
theorem bulk_import_dry_run (s : String) (k : EntityKind) (hk : importHandlers s = some k)
    (df : Table) (hdf : df.Complete) (file : String) (hf : pyEndsWith file ".csv" = true)
    (uid now : Nat) (st : ApiState) :
    ∃ es, validatorK k df = .ok es ∧
      bulk_import s file true uid now (.ok df) st =
        (st, .ok (.dry df.rows.length ((df.rows.length : Int) - es.length) es.length es
          (df.rows.take 10))) := by
  obtain ⟨es, hes⟩ := validatorK_total s k hk df hdf
  refine ⟨es, hes, ?_⟩
  simp [bulk_import, hk, hf, hes]

theorem bulk_import_dry_run_witness :
    ∃ es, validatorK .party dfParty1 = .ok es ∧
      bulk_import "party" "x.csv" true 1 0 (.ok dfParty1) (apiState0 emptyDB) =
        (apiState0 emptyDB, .ok (.dry dfParty1.rows.length
          ((dfParty1.rows.length : Int) - es.length) es.length es (dfParty1.rows.take 10))) :=
  bulk_import_dry_run "party" .party rfl dfParty1 (by decide) "x.csv" (by decide) 1 0
    (apiState0 emptyDB)

/-!
The division validator: its uncaught `KeyError`, and its behaviour when every
code cell is present.
-/

theorem forRowsE_eq_flatMap (f : Nat → Row → Except PyErr (List ErrData))
    (g : Nat → Row → List ErrData) :
    ∀ (rows : List Row), (∀ r ∈ rows, ∀ n, f n r = .ok (g n r)) →
      ∀ idx, forRowsE f idx rows = .ok (flatMapIdx g idx rows) := by
  intro rows
  induction rows with
  | nil => intro _ idx; rfl
  | cons r rs ih =>
    intro h idx
    have hr := h r (List.mem_cons_self r rs) (idx + 2)
    have hrest := ih (fun r' hr' n => h r' (List.mem_cons_of_mem r hr') n) (idx + 1)
    simp [forRowsE, flatMapIdx, hr, hrest]
    rfl

theorem flatMapIdx_append (f : Nat → Row → List ErrData) :
    ∀ (rs1 rs2 : List Row) (idx : Nat),
      flatMapIdx f idx (rs1 ++ rs2) =
        flatMapIdx f idx rs1 ++ flatMapIdx f (idx + rs1.length) rs2 := by
  intro rs1
  induction rs1 with
  | nil => intro rs2 idx; simp [flatMapIdx]
  | cons r rs ih =>
    intro rs2 idx
    simp [flatMapIdx, ih rs2 (idx + 1), List.append_assoc]
    have : idx + 1 + rs.length = idx + (rs.length + 1) := by omega
    rw [this]

theorem flatMapIdx_mem (f : Nat → Row → List ErrData) :
    ∀ (rows : List Row) (idx i : Nat) (r : Row), rows.get? i = some r →
      ∀ x ∈ f (idx + i + 2) r, x ∈ flatMapIdx f idx rows := by
  intro rows
  induction rows with
  | nil => intro idx i r hi; simp at hi
  | cons r0 rs ih =>
    intro idx i r hi x hx
    cases i with
    | zero =>
      rw [List.get?_cons_zero] at hi
      injection hi with hi
      subst hi
      simp only [flatMapIdx, List.mem_append]
      left
      simpa using hx
    | succ n =>
      rw [List.get?_cons_succ] at hi
      have := ih (idx + 1) n r hi x (by
        have heq : idx + 1 + n + 2 = idx + (n + 1) + 2 := by omega
        rwa [heq])
      simp only [flatMapIdx, List.mem_append]
      right
      exact this

theorem validateDivisionRow_ok (df : Table) (hcol : df.cols.contains "code" = true)
    (r : Row) (hr : r ∈ df.rows) (c : Cell) (hc : rowGet r "code" = some c)
    (hna : pyIsNa c = false) (rn : Nat) :
    validateDivisionRow df rn r = .ok (divisionRowSpec df rn r) := by
  have hmem : r ∈ df.rows.filter (fun x => rowGet x "code" == some c) :=
    List.mem_filter.mpr ⟨hr, by simp [hc]⟩
  have hpos : 0 < (df.rows.filter (fun x => rowGet x "code" == some c)).length :=
    List.length_pos.mpr (List.ne_nil_of_mem hmem)
  have hg : getE r "code" = Except.ok c := by simp [getE, hc]
  have hz : ¬ ((df.rows.filter (fun x => rowGet x "code" == some c)).length = 0) := by omega
  have hcm : "code" ∈ df.cols := by
    obtain ⟨a, ha, hbeq⟩ := List.contains_iff_exists_mem_beq.mp hcol
    rwa [show a = "code" from (eq_of_beq hbeq).symm] at ha
  by_cases hd : 1 < (df.rows.filter (fun x => rowGet x "code" == some c)).length
  · simp [validateDivisionRow, divisionRowSpec, hg, hcol, hcm, hc, hna, hz, hd, Bind.bind,
      Except.bind, Pure.pure, Except.pure]
  · simp [validateDivisionRow, divisionRowSpec, hg, hcol, hcm, hc, hna, hz, hd, Bind.bind,
      Except.bind, Pure.pure, Except.pure]

theorem validate_division_ok (df : Table)
    (hm : missingColumns df.cols ["name", "code"] = [])
    (hcodes : ∀ r ∈ df.rows, ∃ c, rowGet r "code" = some c ∧ pyIsNa c = false) :
    validate_division_csv df = .ok (flatMapIdx (divisionRowSpec df) 0 df.rows) := by
  have hcol : df.cols.contains "code" = true := by
    by_contra hfalse
    rw [Bool.not_eq_true] at hfalse
    have hnotmem : "code" ∉ df.cols := by
      intro hmm
      have : df.cols.contains "code" = true :=
        List.contains_iff_exists_mem_beq.mpr ⟨"code", hmm, by simp⟩
      rw [hfalse] at this
      exact Bool.false_ne_true this
    have hmem : "code" ∈ missingColumns df.cols ["name", "code"] :=
      List.mem_filter.mpr ⟨by simp, by simpa using hnotmem⟩
    rw [hm] at hmem
    simp at hmem
  simp only [validate_division_csv]
  rw [hm]
  simp only [List.isEmpty_nil, not_true, if_false, ite_false, Bool.not_true]
  refine forRowsE_eq_flatMap _ _ df.rows (fun r hr n => ?_) 0
  obtain ⟨c, hc, hna⟩ := hcodes r hr
  exact validateDivisionRow_ok df hcol r hr c hc hna n

/-- C5 counterexample: the division validator is not total on tables whose
header contains all required columns — a row whose `code` cell is missing
(NaN) makes `validate_division_csv` raise an uncaught `KeyError` (indexing
`value_counts()`, which drops NaN), instead of returning an error list. -/
theorem validate_division_raises_on_missing_code :
    validate_division_csv dfNaCode = .error (.keyError "nan") := by decide

/-- C5 amended: every dispatched schema validator is total.  The candidate,
party, polling-center, polling-result and voter-demographics validators never
raise on any table (their `int`/`float` conversions sit under
`except ValueError` and every raw access is guarded), and the
constituency-result validator never raises on any table whose rows carry a
cell for every header column (as real pandas rows do).  One row\x27s errors
never halt the checks on subsequent rows — the error list of a concatenation
of row blocks is the concatenation of the blocks\x27 error lists.  The
division validator, not dispatched but claimed total by the spec, returns the
complete per-row error list only on tables in which every row\x27s `code`
cell is present and non-NaN; a missing code cell raises an uncaught
`KeyError` (see the counterexample). -/
theorem validators_total_amended :
    (∀ df, ∃ es, validatorK .candidate df = .ok es) ∧
    (∀ df, ∃ es, validatorK .party df = .ok es) ∧
    (∀ df, ∃ es, validatorK .polling_center df = .ok es) ∧
    (∀ df, ∃ es, validatorK .polling_result df = .ok es) ∧
    (∀ df, ∃ es, validatorK .voter_demographics df = .ok es) ∧
    (∀ df, df.Complete → ∃ es, validatorK .constituency_result df = .ok es) ∧
    (∀ (cols : List String) (rs1 rs2 : List Row) (idx : Nat),
      flatMapIdx (validateCandidateRow cols) idx (rs1 ++ rs2) =
        flatMapIdx (validateCandidateRow cols) idx rs1 ++
          flatMapIdx (validateCandidateRow cols) (idx + rs1.length) rs2) ∧
    (∀ df, missingColumns df.cols ["name", "code"] = [] →
      (∀ r ∈ df.rows, ∃ c, rowGet r "code" = some c ∧ pyIsNa c = false) →
      validate_division_csv df = .ok (flatMapIdx (divisionRowSpec df) 0 df.rows)) := by
  refine ⟨fun df => ⟨_, rfl⟩, fun df => ⟨_, rfl⟩, fun df => ⟨_, rfl⟩, fun df => ⟨_, rfl⟩,
    fun df => ⟨_, rfl⟩, fun df hdf => crValidator_total df hdf,
    fun cols rs1 rs2 idx => flatMapIdx_append _ rs1 rs2 idx,
    fun df hm hcodes => validate_division_ok df hm hcodes⟩

theorem validators_total_amended_witness :
    (∃ es, validatorK .constituency_result (dfCR 40) = .ok es) ∧
    validate_division_csv dfDupCode =
      .ok (flatMapIdx (divisionRowSpec dfDupCode) 0 dfDupCode.rows) :=
  ⟨validators_total_amended.2.2.2.2.2.1 (dfCR 40) (by decide),
   validators_total_amended.2.2.2.2.2.2.2 dfDupCode (by decide)
    (by
      intro r hr
      fin_cases hr
      · exact ⟨Cell.s "D1", by decide, by decide⟩
      · exact ⟨Cell.s "D1", by decide, by decide⟩)⟩

/-- C8: in division validation of a header-complete table whose code cells
are all present, a code value occurring in more than one row produces a
duplicate-code error on every row where it occurs — row `i` (0-based, file
row `i+2`) gets its own duplicate-code entry whenever its code's occurrence
count exceeds one. -/
theorem division_duplicate_flagged_every_row (df : Table)
    (hm : missingColumns df.cols ["name", "code"] = [])
    (hcodes : ∀ r ∈ df.rows, ∃ c, rowGet r "code" = some c ∧ pyIsNa c = false)
    (i : Nat) (r : Row) (c : Cell) (hi : df.rows.get? i = some r)
    (hc : rowGet r "code" = some c)
    (hdup : 1 < (df.rows.filter (fun x => rowGet x "code" == some c)).length) :
    ∃ es, validate_division_csv df = .ok es ∧
      mkColErr (i + 2) "code" ("Duplicate division code: " ++ pyStrCell c) ∈ es := by
  refine ⟨_, validate_division_ok df hm hcodes, ?_⟩
  have hrm : r ∈ df.rows := by
    have := List.get?_eq_some.mp hi
    obtain ⟨hlt, hget⟩ := this
    exact hget ▸ List.get_mem df.rows i hlt
  have hna : pyIsNa c = false := by
    obtain ⟨c', hc', hna'⟩ := hcodes r hrm
    rw [hc] at hc'
    injection hc' with h'
    rw [h']
    exact hna'
  have hx : mkColErr (i + 2) "code" ("Duplicate division code: " ++ pyStrCell c) ∈
      divisionRowSpec df (0 + i + 2) r := by
    simp only [Nat.zero_add]
    unfold divisionRowSpec
    rw [hc]
    simp [hna, hdup]
  exact flatMapIdx_mem _ df.rows 0 i r hi _ hx

/-- C10: optional boolean columns are converted with Python truthiness of the
raw cell, so a present cell holding any non-empty string — in particular
`"false"` — stores the flag as `True`: a party row's `is_registered` (update
and create paths), a polling-center row's `is_active` (update and create
paths), and a constituency row's `is_active` (create path; its update path
never stores, see `crud_constituency.update` receiving a plain dict). -/
theorem truthy_bool_columns_store_true (s : String) (hs : s ≠ "") :
    (import_party_data dbBool (dfPartyFlag s) 1).1.parties =
      [⟨4, "Awami League", none, none, none, none, true⟩] ∧
    (import_party_data dbBool (dfPartyFlagNew s) 1).1.parties =
      [⟨4, "Awami League", some "AL", none, none, none, false⟩,
       ⟨6, "Jatiya Party", none, none, none, none, true⟩] ∧
    (import_polling_center_data dbBool (dfCenterFlag s) 1).1.pollingCenters =
      [⟨5, "PC-001", "New Center", 3, none, none, none, none, true⟩] ∧
    (import_polling_center_data dbBool (dfCenterFlagNew s) 1).1.pollingCenters =
      [⟨5, "PC-001", "Old Center", 3, none, none, none, none, false⟩,
       ⟨6, "PC-002", "New Center", 3, none, none, none, none, true⟩] ∧
    (import_constituency_data dbBool (dfConstFlagNew s)).1.constituencies =
      [⟨3, "Dhaka-1", "1", 2, none, none, true⟩,
       ⟨6, "Dhaka-9", "9", 2, none, none, true⟩] ∧
    pyTruthy (Cell.s s) = true := by
  have ht : pyTruthy (Cell.s s) = true := by simpa [pyTruthy] using hs
  refine ⟨?_, ?_, ?_, ?_, ?_, ht⟩
  · show [⟨4, "Awami League", none, none, none, none, pyTruthy (Cell.s s)⟩] =
      ([⟨4, "Awami League", none, none, none, none, true⟩] : List Party)
    rw [ht]
  · show [⟨4, "Awami League", some "AL", none, none, none, false⟩,
      ⟨6, "Jatiya Party", none, none, none, none, pyTruthy (Cell.s s)⟩] =
      ([⟨4, "Awami League", some "AL", none, none, none, false⟩,
        ⟨6, "Jatiya Party", none, none, none, none, true⟩] : List Party)
    rw [ht]
  · show [⟨5, "PC-001", "New Center", 3, none, none, none, none, pyTruthy (Cell.s s)⟩] =
      ([⟨5, "PC-001", "New Center", 3, none, none, none, none, true⟩] : List PollingCenter)
    rw [ht]
  · show [⟨5, "PC-001", "Old Center", 3, none, none, none, none, false⟩,
      ⟨6, "PC-002", "New Center", 3, none, none, none, none, pyTruthy (Cell.s s)⟩] =
      ([⟨5, "PC-001", "Old Center", 3, none, none, none, none, false⟩,
        ⟨6, "PC-002", "New Center", 3, none, none, none, none, true⟩] : List PollingCenter)
    rw [ht]
  · show [⟨3, "Dhaka-1", "1", 2, none, none, true⟩,
      ⟨6, "Dhaka-9", "9", 2, none, none, pyTruthy (Cell.s s)⟩] =
      ([⟨3, "Dhaka-1", "1", 2, none, none, true⟩,
        ⟨6, "Dhaka-9", "9", 2, none, none, true⟩] : List Constituency)
    rw [ht]

theorem truthy_bool_columns_store_true_witness :
    (import_party_data dbBool (dfPartyFlag "false") 1).1.parties =
      [⟨4, "Awami League", none, none, none, none, true⟩] ∧
    (import_party_data dbBool (dfPartyFlagNew "false") 1).1.parties =
      [⟨4, "Awami League", some "AL", none, none, none, false⟩,
       ⟨6, "Jatiya Party", none, none, none, none, true⟩] ∧
    (import_polling_center_data dbBool (dfCenterFlag "false") 1).1.pollingCenters =
      [⟨5, "PC-001", "New Center", 3, none, none, none, none, true⟩] ∧
    (import_polling_center_data dbBool (dfCenterFlagNew "false") 1).1.pollingCenters =
      [⟨5, "PC-001", "Old Center", 3, none, none, none, none, false⟩,
       ⟨6, "PC-002", "New Center", 3, none, none, none, none, true⟩] ∧
    (import_constituency_data dbBool (dfConstFlagNew "false")).1.constituencies =
      [⟨3, "Dhaka-1", "1", 2, none, none, true⟩,
       ⟨6, "Dhaka-9", "9", 2, none, none, true⟩] ∧
    pyTruthy (Cell.s "false") = true :=
  truthy_bool_columns_store_true "false" (by decide)

theorem division_duplicate_flagged_witness :
    (∃ es, validate_division_csv dfDupCode = .ok es ∧
      mkColErr 2 "code" ("Duplicate division code: " ++ pyStrCell (Cell.s "D1")) ∈ es) ∧
    (∃ es, validate_division_csv dfDupCode = .ok es ∧
      mkColErr 3 "code" ("Duplicate division code: " ++ pyStrCell (Cell.s "D1")) ∈ es) := by
  constructor
  · exact division_duplicate_flagged_every_row dfDupCode (by decide)
      (by
        intro r hr
        fin_cases hr
        · exact ⟨Cell.s "D1", by decide, by decide⟩
        · exact ⟨Cell.s "D1", by decide, by decide⟩)
      0 [("name", Cell.s "Dhaka"), ("code", Cell.s "D1")] (Cell.s "D1")
      (by decide) (by decide) (by decide)
  · exact division_duplicate_flagged_every_row dfDupCode (by decide)
      (by
        intro r hr
        fin_cases hr
        · exact ⟨Cell.s "D1", by decide, by decide⟩
        · exact ⟨Cell.s "D1", by decide, by decide⟩)
      1 [("name", Cell.s "Khulna"), ("code", Cell.s "D1")] (Cell.s "D1")
      (by decide) (by decide) (by decide)

/-!
Infrastructure for the idempotence argument.
-/

theorem findKIdx_eq_findL {K E : Type} [BEq K] (keyOf : E → K) (k : K) :
    ∀ es : List E, findKIdx keyOf k es = findL k (es.map keyOf) := by
  intro es
  induction es with
  | nil => rfl
  | cons e es ih => simp [findKIdx, findL, ih]

theorem findL_lt_length {K : Type} [BEq K] (k : K) :
    ∀ (kl : List K) (j : Nat), findL k kl = some j → j < kl.length := by
  intro kl
  induction kl with
  | nil => intro j h; simp [findL] at h
  | cons k' ks ih =>
    intro j h
    by_cases hb : (k' == k) = true
    · rw [findL, if_pos hb] at h
      injection h with h
      subst h
      simp
    · rw [findL, if_neg hb] at h
      cases hf : findL k ks with
      | none => rw [hf] at h; simp at h
      | some j' =>
        rw [hf] at h
        simp at h
        have := ih j' hf
        simp [← h]
        omega

theorem findL_append_of_some {K : Type} [BEq K] (k : K) :
    ∀ (kl t : List K) (j : Nat), findL k kl = some j → findL k (kl ++ t) = some j := by
  intro kl
  induction kl with
  | nil => intro t j h; simp [findL] at h
  | cons k' ks ih =>
    intro t j h
    by_cases hb : (k' == k) = true
    · rw [findL, if_pos hb] at h
      simpa [findL, hb] using h
    · rw [findL, if_neg hb] at h
      cases hf : findL k ks with
      | none => rw [hf] at h; simp at h
      | some j' =>
        rw [hf] at h
        simp at h
        simp [findL, hb, List.cons_append, ih t j' hf, ← h]

theorem findL_append_none_cons {K : Type} [BEq K] [LawfulBEq K] (k : K) :
    ∀ (kl t : List K), findL k kl = none → findL k (kl ++ k :: t) = some kl.length := by
  intro kl
  induction kl with
  | nil => intro t _; simp [findL]
  | cons k' ks ih =>
    intro t h
    by_cases hb : (k' == k) = true
    · rw [findL, if_pos hb] at h; simp at h
    · rw [findL, if_neg hb] at h
      have hnone : findL k ks = none := by
        cases hf : findL k ks with
        | none => rfl
        | some j' => rw [hf] at h; simp at h
      simp [findL, hb, ih t hnone]

theorem modifyAt_length {α : Type} (u : α → α) :
    ∀ (i : Nat) (es : List α), (modifyAt u i es).length = es.length := by
  intro i
  induction i with
  | zero => intro es; cases es <;> rfl
  | succ n ih => intro es; cases es <;> simp [modifyAt, ih]

theorem map_modifyAt_of_fix {α β : Type} (u : α → α) (f : α → β)
    (hf : ∀ e, f (u e) = f e) :
    ∀ (i : Nat) (es : List α), (modifyAt u i es).map f = es.map f := by
  intro i
  induction i with
  | zero => intro es; cases es <;> simp [modifyAt, hf]
  | succ n ih => intro es; cases es <;> simp [modifyAt, ih]

theorem modifyAt_getD_same {α : Type} (u : α → α) (d : α) :
    ∀ (i : Nat) (es : List α), i < es.length →
      (modifyAt u i es).getD i d = u (es.getD i d) := by
  intro i
  induction i with
  | zero =>
    intro es h
    cases es with
    | nil => simp at h
    | cons e es' => rfl
  | succ n ih =>
    intro es h
    cases es with
    | nil => simp at h
    | cons e es' =>
      show (e :: modifyAt u n es').getD (n + 1) d = u ((e :: es').getD (n + 1) d)
      rw [List.getD_cons_succ, List.getD_cons_succ]
      exact ih es' (by simpa using h)

theorem modifyAt_getD_other {α : Type} (u : α → α) (d : α) :
    ∀ (i j : Nat) (es : List α), i ≠ j →
      (modifyAt u i es).getD j d = es.getD j d := by
  intro i
  induction i with
  | zero =>
    intro j es hne
    cases es with
    | nil => rfl
    | cons e es' =>
      cases j with
      | zero => exact absurd rfl hne
      | succ m =>
        show (u e :: es').getD (m + 1) d = (e :: es').getD (m + 1) d
        rw [List.getD_cons_succ, List.getD_cons_succ]
  | succ n ih =>
    intro j es hne
    cases es with
    | nil => rfl
    | cons e es' =>
      cases j with
      | zero => rfl
      | succ m =>
        show (e :: modifyAt u n es').getD (m + 1) d = (e :: es').getD (m + 1) d
        rw [List.getD_cons_succ, List.getD_cons_succ]
        exact ih m es' (by omega)

theorem list_eq_of_getD {α : Type} (d : α) :
    ∀ (l l' : List α), l.length = l'.length → (∀ j, l.getD j d = l'.getD j d) → l = l' := by
  intro l
  induction l with
  | nil =>
    intro l' hlen _
    cases l' with
    | nil => rfl
    | cons a l'' => simp at hlen
  | cons a l ih =>
    intro l' hlen hget
    cases l' with
    | nil => simp at hlen
    | cons b l'' =>
      have h0 := hget 0
      simp at h0
      subst h0
      have := ih l'' (by simpa using hlen) (fun j => by simpa using hget (j + 1))
      rw [this]

theorem chainApp_cons {K E : Type} [BEq K] (ops : UOps K E) (kl : List K) (j : Nat)
    (r : Row) (rows : List Row) (x : E) :
    chainApp ops kl j (r :: rows) x =
      chainApp ops kl j rows
        (if touches ops kl j r then
          match ops.upd r with
          | .ok u => u x
          | .error _ => x
        else x) := rfl

theorem chainApp_untouched {K E : Type} [BEq K] (ops : UOps K E) (kl : List K) (j : Nat) :
    ∀ (rows : List Row) (x : E), (∀ r ∈ rows, touches ops kl j r = false) →
      chainApp ops kl j rows x = x := by
  intro rows
  induction rows with
  | nil => intro x _; rfl
  | cons r rs ih =>
    intro x h
    rw [chainApp_cons, h r (List.mem_cons_self r rs)]
    simp only [Bool.false_eq_true, if_false]
    exact ih x (fun r' hr' => h r' (List.mem_cons_of_mem r hr'))

theorem chainApp_absorb {K E : Type} [BEq K] (ops : UOps K E) (L : ULaws ops)
    (kl : List K) (j : Nat) :
    ∀ (rows : List Row) (x : E) (r0 : Row) (u : E → E), ops.upd r0 = .ok u →
      (∀ r ∈ rows, ∃ k u', ops.key r = .ok k ∧ ops.upd r = .ok u') →
      (∃ r' ∈ rows, touches ops kl j r' = true) →
      chainApp ops kl j rows (u x) = chainApp ops kl j rows x := by
  intro rows
  induction rows with
  | nil =>
    intro x r0 u _ _ ht
    obtain ⟨r', hr', _⟩ := ht
    simp at hr'
  | cons r rs ih =>
    intro x r0 u hu hok ht
    obtain ⟨k1, u1, hk', hu'⟩ := hok r (List.mem_cons_self r rs)
    by_cases hT : touches ops kl j r = true
    · rw [chainApp_cons, chainApp_cons, hT]
      simp only [if_true, hu']
      rw [L.updUpd r r0 u1 u x hu' hu]
    · rw [chainApp_cons, chainApp_cons]
      rw [Bool.not_eq_true] at hT
      rw [hT]
      simp only [Bool.false_eq_true, if_false]
      obtain ⟨r', hr', hTr'⟩ := ht
      rcases List.mem_cons.mp hr' with hEq | hmem
      · subst hEq
        rw [hTr'] at hT
        exact absurd hT (by simp)
      · exact ih x r0 u hu (fun r'' hr'' => hok r'' (List.mem_cons_of_mem r hr''))
          ⟨r', hmem, hTr'⟩

theorem ustep_ok_cases {K E : Type} [BEq K] (ops : UOps K E) (es : List E) (nid : Nat)
    (r : Row) (es' : List E) (nid' : Nat)
    (h : ustep ops es nid r = ((es', nid'), none)) :
    ∃ k, ops.key r = .ok k ∧
      ((∃ i u, findKIdx ops.keyOf k es = some i ∧ ops.upd r = .ok u ∧
        es' = modifyAt u i es ∧ nid' = nid) ∨
       (∃ e, findKIdx ops.keyOf k es = none ∧ ops.mkE k r nid es = .ok e ∧
        es' = es ++ [e] ∧ nid' = nid + 1)) := by
  unfold ustep at h
  split at h
  next m heq => simp at h
  next k heq =>
    split at h
    next i heq2 =>
      split at h
      next m heq3 => simp at h
      next u heq3 =>
        simp at h
        exact ⟨k, heq, Or.inl ⟨i, u, heq2, heq3, h.1.symm, h.2.symm⟩⟩
    next heq2 =>
      split at h
      next m heq3 => simp at h
      next e heq3 =>
        simp at h
        exact ⟨k, heq, Or.inr ⟨e, heq2, heq3, h.1.symm, h.2.symm⟩⟩

theorem ustep_err {K E : Type} [BEq K] (ops : UOps K E) (es : List E) (nid : Nat)
    (r : Row) (es' : List E) (nid' : Nat) (m : String)
    (h : ustep ops es nid r = ((es', nid'), some m)) : es' = es ∧ nid' = nid := by
  unfold ustep at h
  split at h
  next m' heq => simp at h; exact ⟨h.1.1.symm, h.1.2.symm⟩
  next k heq =>
    split at h
    next i heq2 =>
      split at h
      next m' heq3 => simp at h; exact ⟨h.1.1.symm, h.1.2.symm⟩
      next u heq3 => simp at h
    next heq2 =>
      split at h
      next m' heq3 => simp at h; exact ⟨h.1.1.symm, h.1.2.symm⟩
      next e heq3 => simp at h

theorem urun_cons_ok {K E : Type} [BEq K] (ops : UOps K E) (es : List E) (nid idx : Nat)
    (r : Row) (rs : List Row) (es' : List E) (nid' : Nat)
    (h : ustep ops es nid r = ((es', nid'), none)) :
    urun ops es nid idx (r :: rs) =
      { urun ops es' nid' (idx + 1) rs with
        succ := (urun ops es' nid' (idx + 1) rs).succ + 1 } := by
  simp [urun, h]

theorem urun_cons_err {K E : Type} [BEq K] (ops : UOps K E) (es : List E) (nid idx : Nat)
    (r : Row) (rs : List Row) (es' : List E) (nid' : Nat) (m : String)
    (h : ustep ops es nid r = ((es', nid'), some m)) :
    urun ops es nid idx (r :: rs) =
      { urun ops es' nid' (idx + 1) rs with
        fail := (urun ops es' nid' (idx + 1) rs).fail + 1,
        errs := mkRowErr (idx + 2) m :: (urun ops es' nid' (idx + 1) rs).errs } := by
  simp [urun, h]

theorem getD_append_self {α : Type} (d : α) :
    ∀ (l : List α) (a : α), (l ++ [a]).getD l.length d = a := by
  intro l
  induction l with
  | nil => intro a; rfl
  | cons b l ih =>
    intro a
    show (b :: (l ++ [a])).getD (l.length + 1) d = a
    rw [List.getD_cons_succ]
    exact ih a

theorem getD_append_ne {α : Type} (d : α) :
    ∀ (l : List α) (a : α) (j : Nat), j ≠ l.length → (l ++ [a]).getD j d = l.getD j d := by
  intro l
  induction l with
  | nil =>
    intro a j hj
    cases j with
    | zero => exact absurd rfl hj
    | succ m => rfl
  | cons b l ih =>
    intro a j hj
    cases j with
    | zero => rfl
    | succ m =>
      show (b :: (l ++ [a])).getD (m + 1) d = (b :: l).getD (m + 1) d
      rw [List.getD_cons_succ, List.getD_cons_succ]
      exact ih a m (fun h => hj (by simp [h]))

/-- Forward invariant of a fully successful run: keys are only appended, every
row has a working key and update whose key occurs in the final key list, the
final contents are a fixpoint of the rows\x27 update chain at every position,
and positions untouched by the remaining rows keep their value. -/
theorem urun_run1 {K E : Type} [BEq K] [LawfulBEq K] (ops : UOps K E) (L : ULaws ops)
    (d : E) :
    ∀ (rows : List Row) (es : List E) (nid idx : Nat),
      (urun ops es nid idx rows).fail = 0 →
      (∃ t, (urun ops es nid idx rows).es.map ops.keyOf = es.map ops.keyOf ++ t) ∧
      (∀ r ∈ rows, ∃ k u, ops.key r = .ok k ∧ ops.upd r = .ok u ∧
        (findL k ((urun ops es nid idx rows).es.map ops.keyOf)).isSome = true) ∧
      (∀ j, chainApp ops ((urun ops es nid idx rows).es.map ops.keyOf) j rows
        ((urun ops es nid idx rows).es.getD j d) = (urun ops es nid idx rows).es.getD j d) ∧
      (∀ j, (∀ r ∈ rows, touches ops ((urun ops es nid idx rows).es.map ops.keyOf) j r = false) →
        (urun ops es nid idx rows).es.getD j d = es.getD j d) := by
  intro rows
  induction rows with
  | nil =>
    intro es nid idx _
    refine ⟨⟨[], by simp [urun]⟩, ?_, ?_, ?_⟩
    · intro r hr
      exact absurd hr (List.not_mem_nil r)
    · intro j
      rfl
    · intro j _
      rfl
  | cons r rs ih =>
    intro es nid idx hfail
    rcases hstep : ustep ops es nid r with ⟨⟨es2, nid2⟩, mo⟩
    cases mo with
    | some m =>
      rw [urun_cons_err ops es nid idx r rs es2 nid2 m hstep] at hfail
      simp at hfail
    | none =>
      have hfail2 : (urun ops es2 nid2 (idx + 1) rs).fail = 0 := by
        rw [urun_cons_ok ops es nid idx r rs es2 nid2 hstep] at hfail
        exact hfail
      have hes : (urun ops es nid idx (r :: rs)).es = (urun ops es2 nid2 (idx + 1) rs).es := by
        rw [urun_cons_ok ops es nid idx r rs es2 nid2 hstep]
      rw [hes]
      obtain ⟨⟨t, hkeys⟩, hok, hchain, hstable⟩ := ih es2 nid2 (idx + 1) hfail2
      obtain ⟨k, hk, hcase⟩ := ustep_ok_cases ops es nid r es2 nid2 hstep
      set Rf := urun ops es2 nid2 (idx + 1) rs with hRf
      set klf := Rf.es.map ops.keyOf with hklf
      rcases hcase with ⟨i, u, hfi, hu, hes2, hnid2⟩ | ⟨e, hfi, hmk, hes2, hnid2⟩
      · -- the row updated position i
        have hklp : es2.map ops.keyOf = es.map ops.keyOf := by
          rw [hes2]
          exact map_modifyAt_of_fix u ops.keyOf (fun x => L.keyUpd r u x hu) i es
        have hkeysf : klf = es.map ops.keyOf ++ t := by
          rw [hkeys, hklp]
        have hfind : findL k (es.map ops.keyOf) = some i := by
          rw [← findKIdx_eq_findL]
          exact hfi
        have hfindf : findL k klf = some i := by
          rw [hkeysf]
          exact findL_append_of_some k (es.map ops.keyOf) t i hfind
        refine ⟨⟨t, hkeysf⟩, ?_, ?_, ?_⟩
        · intro r1 hr1
          rcases List.mem_cons.mp hr1 with hEq | hmem
          · subst hEq
            exact ⟨k, u, hk, hu, by rw [hfindf]; rfl⟩
          · exact hok r1 hmem
        · intro j
          rw [chainApp_cons]
          by_cases hT : touches ops klf j r = true
          · have hTb : (findL k klf == some j) = true := by
              have h4 := hT
              simp only [touches, hk] at h4
              exact h4
            have hji : j = i := by
              have h2 := eq_of_beq hTb
              rw [hfindf] at h2
              injection h2 with h2
              exact h2.symm
            subst hji
            rw [hT]
            simp only [if_true, hu]
            by_cases hex : ∃ r1 ∈ rs, touches ops klf j r1 = true
            · have hokrs : ∀ r1 ∈ rs, ∃ k2 u2, ops.key r1 = .ok k2 ∧ ops.upd r1 = .ok u2 := by
                intro r1 hr1
                obtain ⟨k2, u2, h1, h2, _⟩ := hok r1 hr1
                exact ⟨k2, u2, h1, h2⟩
              rw [chainApp_absorb ops L klf j rs (Rf.es.getD j d) r u hu hokrs hex]
              exact hchain j
            · have hunt : ∀ r1 ∈ rs, touches ops klf j r1 = false := by
                intro r1 hr1
                cases hb : touches ops klf j r1 with
                | false => rfl
                | true => exact absurd ⟨r1, hr1, hb⟩ hex
              rw [chainApp_untouched ops klf j rs (u (Rf.es.getD j d)) hunt]
              have hstab : Rf.es.getD j d = es2.getD j d := hstable j hunt
              have hlt : j < es.length := by
                have h3 := findL_lt_length k (es.map ops.keyOf) j hfind
                rw [List.length_map] at h3
                exact h3
              have hesi : es2.getD j d = u (es.getD j d) := by
                rw [hes2]
                exact modifyAt_getD_same u d j es hlt
              rw [hstab, hesi]
              exact L.updUpd r r u u (es.getD j d) hu hu
          · have hF : touches ops klf j r = false := by
              cases hb : touches ops klf j r with
              | false => rfl
              | true => exact absurd hb hT
            rw [hF]
            simp only [Bool.false_eq_true, if_false]
            exact hchain j
        · intro j hjunt
          have hr0 : touches ops klf j r = false := hjunt r (List.mem_cons_self r rs)
          have hrs : ∀ r1 ∈ rs, touches ops klf j r1 = false :=
            fun r1 h => hjunt r1 (List.mem_cons_of_mem r h)
          have h1 : Rf.es.getD j d = es2.getD j d := hstable j hrs
          have hij : i ≠ j := by
            intro hij
            subst hij
            simp only [touches, hk, hfindf] at hr0
            simp at hr0
          have h2 : es2.getD j d = es.getD j d := by
            rw [hes2]
            exact modifyAt_getD_other u d i j es hij
          rw [h1, h2]
      · -- the row created a fresh entity
        have hkeye : ops.keyOf e = k := L.keyMk k r nid es e hk hmk
        have hkl2 : es2.map ops.keyOf = es.map ops.keyOf ++ [k] := by
          rw [hes2]
          simp [hkeye]
        have hfn : findL k (es.map ops.keyOf) = none := by
          rw [← findKIdx_eq_findL]
          exact hfi
        have hfind2 : findL k (es2.map ops.keyOf) = some (es.map ops.keyOf).length := by
          rw [hkl2]
          exact findL_append_none_cons k (es.map ops.keyOf) [] hfn
        have hkeysf : klf = es.map ops.keyOf ++ (k :: t) := by
          rw [hkeys, hkl2]
          simp
        have hfindf : findL k klf = some (es.map ops.keyOf).length := by
          rw [hkeys]
          exact findL_append_of_some k (es2.map ops.keyOf) t _ hfind2
        obtain ⟨u, hu⟩ := L.mkUpd k r nid es e hmk
        refine ⟨⟨k :: t, hkeysf⟩, ?_, ?_, ?_⟩
        · intro r1 hr1
          rcases List.mem_cons.mp hr1 with hEq | hmem
          · subst hEq
            exact ⟨k, u, hk, hu, by rw [hfindf]; rfl⟩
          · exact hok r1 hmem
        · intro j
          rw [chainApp_cons]
          by_cases hT : touches ops klf j r = true
          · have hTb : (findL k klf == some j) = true := by
              have h4 := hT
              simp only [touches, hk] at h4
              exact h4
            have hji : j = (es.map ops.keyOf).length := by
              have h2 := eq_of_beq hTb
              rw [hfindf] at h2
              injection h2 with h2
              exact h2.symm
            subst hji
            rw [hT]
            simp only [if_true, hu]
            by_cases hex : ∃ r1 ∈ rs, touches ops klf (es.map ops.keyOf).length r1 = true
            · have hokrs : ∀ r1 ∈ rs, ∃ k2 u2, ops.key r1 = .ok k2 ∧ ops.upd r1 = .ok u2 := by
                intro r1 hr1
                obtain ⟨k2, u2, h1, h2, _⟩ := hok r1 hr1
                exact ⟨k2, u2, h1, h2⟩
              rw [chainApp_absorb ops L klf (es.map ops.keyOf).length rs
                (Rf.es.getD (es.map ops.keyOf).length d) r u hu hokrs hex]
              exact hchain (es.map ops.keyOf).length
            · have hunt : ∀ r1 ∈ rs, touches ops klf (es.map ops.keyOf).length r1 = false := by
                intro r1 hr1
                cases hb : touches ops klf (es.map ops.keyOf).length r1 with
                | false => rfl
                | true => exact absurd ⟨r1, hr1, hb⟩ hex
              rw [chainApp_untouched ops klf (es.map ops.keyOf).length rs
                (u (Rf.es.getD (es.map ops.keyOf).length d)) hunt]
              have hstab : Rf.es.getD (es.map ops.keyOf).length d =
                  es2.getD (es.map ops.keyOf).length d := hstable _ hunt
              have hNe : es2.getD (es.map ops.keyOf).length d = e := by
                rw [hes2, List.length_map]
                exact getD_append_self d es e
              rw [hstab, hNe]
              exact L.updMk k r nid es u e hk hu hmk
          · have hF : touches ops klf j r = false := by
              cases hb : touches ops klf j r with
              | false => rfl
              | true => exact absurd hb hT
            rw [hF]
            simp only [Bool.false_eq_true, if_false]
            exact hchain j
        · intro j hjunt
          have hr0 : touches ops klf j r = false := hjunt r (List.mem_cons_self r rs)
          have hrs : ∀ r1 ∈ rs, touches ops klf j r1 = false :=
            fun r1 h => hjunt r1 (List.mem_cons_of_mem r h)
          have h1 : Rf.es.getD j d = es2.getD j d := hstable j hrs
          have hjne : j ≠ es.length := by
            intro hje
            simp only [touches, hk, hfindf] at hr0
            rw [List.length_map, hje] at hr0
            simp at hr0
          have h2 : es2.getD j d = es.getD j d := by
            rw [hes2]
            exact getD_append_ne d es e j hjne
          rw [h1, h2]

/-- Second-run lemma: when every row keys into `es1`, the key lists agree and
the remaining update chain carries the current contents to `es1`, the run ends
exactly at `es1` with every row successful and no fresh ids consumed. -/
theorem urun_run2 {K E : Type} [BEq K] [LawfulBEq K] (ops : UOps K E) (L : ULaws ops)
    (d : E) (es1 : List E) :
    ∀ (rows : List Row) (es2 : List E) (nid idx : Nat),
      es2.map ops.keyOf = es1.map ops.keyOf →
      (∀ r ∈ rows, ∃ k u, ops.key r = .ok k ∧ ops.upd r = .ok u ∧
        (findL k (es1.map ops.keyOf)).isSome = true) →
      (∀ j, chainApp ops (es1.map ops.keyOf) j rows (es2.getD j d) = es1.getD j d) →
      urun ops es2 nid idx rows = ⟨es1, nid, rows.length, 0, []⟩ := by
  intro rows
  induction rows with
  | nil =>
    intro es2 nid idx hmap _ hchain
    have hlen : es2.length = es1.length := by
      have h1 := congrArg List.length hmap
      simpa using h1
    have heq : es2 = es1 := list_eq_of_getD d es2 es1 hlen (fun j => hchain j)
    rw [urun, heq]
    rfl
  | cons r rs ih =>
    intro es2 nid idx hmap hok hchain
    obtain ⟨k, u, hk, hu, hsome⟩ := hok r (List.mem_cons_self r rs)
    obtain ⟨j0, hj0⟩ : ∃ j0, findL k (es1.map ops.keyOf) = some j0 := by
      cases hf : findL k (es1.map ops.keyOf) with
      | none => rw [hf] at hsome; simp at hsome
      | some j => exact ⟨j, rfl⟩
    have hfk : findKIdx ops.keyOf k es2 = some j0 := by
      rw [findKIdx_eq_findL, hmap]
      exact hj0
    have hstep : ustep ops es2 nid r = ((modifyAt u j0 es2, nid), none) := by
      simp only [ustep, hk, hfk, hu]
    rw [urun_cons_ok ops es2 nid idx r rs (modifyAt u j0 es2) nid hstep]
    have hlen2 : es2.length = es1.length := by
      have h1 := congrArg List.length hmap
      simpa using h1
    have hj0lt : j0 < es2.length := by
      have h1 := findL_lt_length k (es1.map ops.keyOf) j0 hj0
      rw [List.length_map] at h1
      omega
    have hmap2 : (modifyAt u j0 es2).map ops.keyOf = es1.map ops.keyOf := by
      rw [map_modifyAt_of_fix u ops.keyOf (fun x => L.keyUpd r u x hu) j0 es2]
      exact hmap
    have hchain2 : ∀ j, chainApp ops (es1.map ops.keyOf) j rs
        ((modifyAt u j0 es2).getD j d) = es1.getD j d := by
      intro j
      by_cases hjj : j = j0
      · subst hjj
        rw [modifyAt_getD_same u d j es2 hj0lt]
        have hc := hchain j
        rw [chainApp_cons] at hc
        have hT : touches ops (es1.map ops.keyOf) j r = true := by
          simp only [touches, hk, hj0]
          simp
        rw [hT] at hc
        simp only [if_true, hu] at hc
        exact hc
      · rw [modifyAt_getD_other u d j0 j es2 (fun h => hjj h.symm)]
        have hc := hchain j
        rw [chainApp_cons] at hc
        have hne : (some j0 : Option Nat) ≠ some j := by
          intro h2
          injection h2 with h2
          exact hjj h2.symm
        have hF : touches ops (es1.map ops.keyOf) j r = false := by
          simp only [touches, hk, hj0]
          exact beq_eq_false_iff_ne.mpr hne
        rw [hF] at hc
        simp only [Bool.false_eq_true, if_false] at hc
        exact hc
    rw [ih (modifyAt u j0 es2) nid (idx + 1) hmap2
      (fun r1 h => hok r1 (List.mem_cons_of_mem r h)) hchain2]
    rfl

/-- Re-running a fully successful import over its own result changes nothing:
every row succeeds again (as an update) and the contents are reproduced. -/
theorem urun_idem {K E : Type} [BEq K] [LawfulBEq K] (ops : UOps K E) (L : ULaws ops)
    (d : E) (rows : List Row) (es : List E) (nid idx nid2 idx2 : Nat)
    (hf : (urun ops es nid idx rows).fail = 0) :
    urun ops (urun ops es nid idx rows).es nid2 idx2 rows =
      ⟨(urun ops es nid idx rows).es, nid2, rows.length, 0, []⟩ := by
  obtain ⟨_, hok, hchain, _⟩ := urun_run1 ops L d rows es nid idx hf
  exact urun_run2 ops L d (urun ops es nid idx rows).es rows (urun ops es nid idx rows).es
    nid2 idx2 rfl hok hchain

/-- The party importer satisfies the upsert laws: its key is the stored name,
its update overwrites exactly the four non-key fields with row-determined
values, and its create path writes those same values. -/
theorem partyLaws : ULaws partyOps := by
  refine ⟨?_, ?_, ?_, ?_, ?_⟩
  · intro k r n l e hk hm
    simp only [partyOps, partyMk] at hm
    split at hm
    next => simp at hm
    next =>
      split at hm
      next => simp at hm
      next =>
        simp only [Except.ok.injEq] at hm
        subst hm
        rfl
  · intro r u e hu
    simp only [partyOps, partyUpd, Except.ok.injEq] at hu
    subst hu
    rfl
  · intro r r1 u u1 e hu hu1
    simp only [partyOps, partyUpd, Except.ok.injEq] at hu hu1
    subst hu
    subst hu1
    rfl
  · intro k r n l u e hk hu hm
    simp only [partyOps, partyUpd, Except.ok.injEq] at hu
    subst hu
    simp only [partyOps, partyMk] at hm
    split at hm
    next => simp at hm
    next =>
      split at hm
      next => simp at hm
      next =>
        simp only [Except.ok.injEq] at hm
        subst hm
        rfl
  · intro k r n l e hm
    exact ⟨_, rfl⟩

/-- Shape of a successful candidate update: references and the optional age
parse, and the function overwrites exactly the non-key fields. -/
theorem candidateUpd_shape (ps : List Party) (cs : List Constituency) (r : Row)
    (u : Candidate → Candidate) (hu : candidateUpd ps cs r = .ok u) :
    ∃ pr age, candidateKeyRes ps cs r = .ok pr ∧ optIntFieldS r "age" = .ok age ∧
      u = fun e => { e with
        bengali_name := optStrField r "bengali_name"
        age := age
        education := optStrField r "education"
        profession := optStrField r "profession"
        candidate_number := optStrField r "candidate_number"
        deposit_status := optStrField r "deposit_status"
        party_id := pr.1.id
        is_active := boolFieldD r "is_active" true } := by
  cases hkr : candidateKeyRes ps cs r with
  | error m => simp [candidateUpd, hkr, Bind.bind, Except.bind] at hu
  | ok pr =>
    cases ha : optIntFieldS r "age" with
    | error m => simp [candidateUpd, hkr, ha, Bind.bind, Except.bind] at hu
    | ok age =>
      refine ⟨pr, age, rfl, rfl, ?_⟩
      simp only [candidateUpd, hkr, ha, Bind.bind, Except.bind, pure, Except.pure,
        Except.ok.injEq] at hu
      exact hu.symm

/-- The candidate importer satisfies the upsert laws. -/
theorem candidateLaws (ps : List Party) (cs : List Constituency) :
    ULaws (candidateOps ps cs) := by
  refine ⟨?_, ?_, ?_, ?_, ?_⟩
  · intro k r n l e hk hm
    simp only [candidateOps] at hm
    cases hkr : candidateKeyRes ps cs r with
    | error m => simp [candidateMk, hkr, Bind.bind, Except.bind] at hm
    | ok pr =>
      cases ha : optIntFieldS r "age" with
      | error m => simp [candidateMk, hkr, ha, Bind.bind, Except.bind] at hm
      | ok age =>
        cases he : strFieldS r "election_type" with
        | error m => simp [candidateMk, hkr, ha, he, Bind.bind, Except.bind] at hm
        | ok et =>
          simp only [candidateMk, hkr, ha, he, Bind.bind, Except.bind, pure,
            Except.pure] at hm
          split at hm
          next => simp at hm
          next =>
            split at hm
            next => simp at hm
            next =>
              simp only [Except.ok.injEq] at hm
              subst hm
              rfl
  · intro r u e hu
    simp only [candidateOps] at hu
    obtain ⟨pr, age, hkr, ha, hu1⟩ := candidateUpd_shape ps cs r u hu
    subst hu1
    rfl
  · intro r r1 u u1 e hu hu1
    simp only [candidateOps] at hu hu1
    obtain ⟨pr, age, hkr, ha, hsh⟩ := candidateUpd_shape ps cs r u hu
    obtain ⟨pr1, age1, hkr1, ha1, hsh1⟩ := candidateUpd_shape ps cs r1 u1 hu1
    subst hsh
    subst hsh1
    rfl
  · intro k r n l u e hk hu hm
    simp only [candidateOps] at hu hm
    obtain ⟨pr, age, hkr, ha, hsh⟩ := candidateUpd_shape ps cs r u hu
    subst hsh
    cases he : strFieldS r "election_type" with
    | error m => simp [candidateMk, hkr, ha, he, Bind.bind, Except.bind] at hm
    | ok et =>
      simp only [candidateMk, hkr, ha, he, Bind.bind, Except.bind, pure,
        Except.pure] at hm
      split at hm
      next => simp at hm
      next =>
        split at hm
        next => simp at hm
        next =>
          simp only [Except.ok.injEq] at hm
          subst hm
          rfl
  · intro k r n l e hm
    simp only [candidateOps] at hm
    cases hkr : candidateKeyRes ps cs r with
    | error m => simp [candidateMk, hkr, Bind.bind, Except.bind] at hm
    | ok pr =>
      cases ha : optIntFieldS r "age" with
      | error m => simp [candidateMk, hkr, ha, Bind.bind, Except.bind] at hm
      | ok age =>
        refine ⟨fun e => { e with
          bengali_name := optStrField r "bengali_name"
          age := age
          education := optStrField r "education"
          profession := optStrField r "profession"
          candidate_number := optStrField r "candidate_number"
          deposit_status := optStrField r "deposit_status"
          party_id := pr.1.id
          is_active := boolFieldD r "is_active" true }, ?_⟩
        simp only [candidateOps, candidateUpd, hkr, ha, Bind.bind, Except.bind, pure,
          Except.pure]

/-- C9: importing the same table twice in sequence is idempotent for the party
and candidate importers.  If the first run reports zero failed rows, the second
run over the resulting store returns that store unchanged (same entity
contents, no fresh ids consumed, hence zero inserts) and reports every row as
successful with an empty error list. -/
theorem import_twice_idempotent :
    (∀ (db : DB) (df : Table) (uid uid2 : Nat),
      (import_party_data db df uid).2.failed_rows = 0 →
      import_party_data (import_party_data db df uid).1 df uid2 =
        ((import_party_data db df uid).1,
         ⟨df.rows.length, df.rows.length, 0, []⟩)) ∧
    (∀ (db : DB) (df : Table) (uid uid2 : Nat),
      (import_candidate_data db df uid).2.failed_rows = 0 →
      import_candidate_data (import_candidate_data db df uid).1 df uid2 =
        ((import_candidate_data db df uid).1,
         ⟨df.rows.length, df.rows.length, 0, []⟩)) := by
  constructor
  · intro db df uid uid2 hfail
    have hf : (urun partyOps db.parties db.nextId 0 df.rows).fail = 0 := hfail
    have key := urun_idem partyOps partyLaws dummyParty df.rows db.parties db.nextId 0
      (urun partyOps db.parties db.nextId 0 df.rows).nid 0 hf
    simp only [import_party_data, runImport]
    rw [key]
  · intro db df uid uid2 hfail
    have hf : (urun (candidateOps db.parties db.constituencies) db.candidates
        db.nextId 0 df.rows).fail = 0 := hfail
    have key := urun_idem (candidateOps db.parties db.constituencies)
      (candidateLaws db.parties db.constituencies) dummyCandidate df.rows db.candidates
      db.nextId 0
      (urun (candidateOps db.parties db.constituencies) db.candidates db.nextId 0
        df.rows).nid 0 hf
    simp only [import_candidate_data, runImport]
    rw [key]

/-- Concrete instantiation of the idempotence theorem: a party table (one
update, one create) and a candidate table, each fully successful on a first
run over `dbIdem`, re-import to an unchanged store with all rows
successful. -/
theorem import_twice_idempotent_witness :
    import_party_data (import_party_data dbIdem dfPartyIdem 1).1 dfPartyIdem 2 =
      ((import_party_data dbIdem dfPartyIdem 1).1,
       ⟨dfPartyIdem.rows.length, dfPartyIdem.rows.length, 0, []⟩) ∧
    import_candidate_data (import_candidate_data dbIdem dfCandIdem 1).1 dfCandIdem 2 =
      ((import_candidate_data dbIdem dfCandIdem 1).1,
       ⟨dfCandIdem.rows.length, dfCandIdem.rows.length, 0, []⟩) :=
  ⟨import_twice_idempotent.1 dbIdem dfPartyIdem 1 2 (by decide),
   import_twice_idempotent.2 dbIdem dfCandIdem 1 2 (by decide)⟩

end BEMS
